import Mathlib

/-!
# RayTracer.cpp: recursive tracing and shading

A shallow embedding of `src/RayTracer.cpp` (`DoRayTrace`, `TraceScene`,
`CalculateLighting`) and theorems about it.

Conventions of the embedding.

* Scalars (`double`, `float`) are idealised as rationals: rounding, infinities
  and NaN are outside the model.
* A value the C++ leaves undefined (control reaching the end of `TraceScene`
  without a `return`, a null pointer dereferenced, an iterator past the end
  dereferenced, an out-of-range conversion to `int`) is `none`; it is absorbing
  for the colour arithmetic built on it.
* `TraceScene` also produces the list of the intersection queries and recursive
  calls it makes, in the order the source makes them, so that statements about
  "which calls are made" can be read off the same definition that computes the
  colour.
* The headers (`Vector3`, `Scene`, `Primitive`, ...) are not part of the
  sources. Their rational operations are written out below; the operations that
  need a square root or a real power are taken as a parameter (`Maths`).
-/

namespace RT

/-! ## Data model -/

/-- Three scalars; `v[0]`, `v[1]`, `v[2]` of the source are `x`, `y`, `z`. -/
structure Vector3 where
  x : ℚ
  y : ℚ
  z : ℚ
deriving DecidableEq

/-- Colours are RGB triples with the arithmetic of `Vector3`. -/
abbrev Colour := Vector3

namespace Vector3

/-- Modelled from the spec: component-wise addition of the absent `Vector3` class. -/
def add (a b : Vector3) : Vector3 := ⟨a.x + b.x, a.y + b.y, a.z + b.z⟩

/-- Modelled from the spec: component-wise subtraction of the absent `Vector3` class. -/
def sub (a b : Vector3) : Vector3 := ⟨a.x - b.x, a.y - b.y, a.z - b.z⟩

/-- Modelled from the spec: component-wise multiplication (colour times colour). -/
def mul (a b : Vector3) : Vector3 := ⟨a.x * b.x, a.y * b.y, a.z * b.z⟩

/-- Modelled from the spec: multiplication by a scalar. -/
def scale (a : Vector3) (s : ℚ) : Vector3 := ⟨a.x * s, a.y * s, a.z * s⟩

/-- Modelled from the spec: division by a scalar. -/
def divide (a : Vector3) (s : ℚ) : Vector3 := ⟨a.x / s, a.y / s, a.z / s⟩

/-- Modelled from the spec: the dot product. -/
def DotProduct (a b : Vector3) : ℚ := a.x * b.x + a.y * b.y + a.z * b.z

instance : Add Vector3 := ⟨add⟩
instance : Sub Vector3 := ⟨sub⟩
instance : Mul Vector3 := ⟨mul⟩
instance : HMul Vector3 ℚ Vector3 := ⟨scale⟩
instance : HDiv Vector3 ℚ Vector3 := ⟨divide⟩

end Vector3

/-- The operations of the absent `Vector3` class and of `<math.h>` that are not
rational; every definition below takes them as a parameter. -/
structure Maths where
  /-- `Vector3::Norm`. -/
  Norm : Vector3 → ℚ
  /-- `Vector3::Normalise`. -/
  Normalise : Vector3 → Vector3
  /-- `Vector3::Reflect`, the receiver first, the normal second. -/
  Reflect : Vector3 → Vector3 → Vector3
  /-- `Vector3::Refract`, the receiver first, then the normal and the index ratio. -/
  Refract : Vector3 → Vector3 → ℚ → Vector3
  /-- `pow` of `<math.h>`. -/
  pow : ℚ → ℚ → ℚ

/-- A ray: `SetRay (origin, direction)`; `GetRay ()` returns the direction. -/
structure Ray where
  origin : Vector3
  direction : Vector3
deriving DecidableEq

/-- The `Material` accessors the tracer reads. -/
structure Material where
  ambient : Colour
  diffuse : Colour
  specular : Colour
  specPower : ℚ
  castShadow : Bool
deriving DecidableEq

/-- Modelled from the spec: the closed set of primitive variants (`m_primtype`). -/
inductive PrimType where
  | Plane
  | Sphere
  | Box
deriving DecidableEq

/-- A primitive as the tracer sees it: its type tag and its material. -/
structure Primitive where
  m_primtype : PrimType
  material : Material
deriving DecidableEq

/-- An intersection result; `data` is the hit primitive, `none` for the null pointer. -/
structure RayHitResult where
  data : Option Primitive
  point : Vector3
  normal : Vector3
deriving DecidableEq

/-- A light: `GetLightPosition`, `GetLightColour`. -/
structure Light where
  position : Vector3
  colour : Colour
deriving DecidableEq

/-- The camera accessors `DoRayTrace` and `TraceScene` read. -/
structure Camera where
  position : Vector3
  rightVector : Vector3
  upVector : Vector3
  viewVector : Vector3
  viewCentre : Vector3

/-- The scene collaborator: accessors and the ray-scene intersection query. -/
structure Scene where
  camera : Camera
  sceneWidth : ℚ
  sceneHeight : ℚ
  background : Colour
  lights : List Light
  IntersectByRay : Ray → RayHitResult

/-! ## Trace flags -/

/-- Modelled from the spec: the enumerators of `TraceFlags` (declared in the
absent header) are distinct single bits of the mask. -/
def TRACE_AMBIENT : Nat := 1

/-- Modelled from the spec: second bit of the `TraceFlags` mask. -/
def TRACE_DIFFUSE_AND_SPEC : Nat := 2

/-- Modelled from the spec: third bit of the `TraceFlags` mask. -/
def TRACE_SHADOW : Nat := 4

/-- Modelled from the spec: fourth bit of the `TraceFlags` mask. -/
def TRACE_REFLECTION : Nat := 8

/-- Modelled from the spec: fifth bit of the `TraceFlags` mask. -/
def TRACE_REFRACTION : Nat := 16

/-- The test `m_traceflag & FLAG` used as a condition. -/
def hasFlag (m_traceflag flag : Nat) : Bool := (m_traceflag &&& flag) != 0

/-! ## CalculateLighting -/

/-- Conversion of a `double` to `int`: truncation toward zero, undefined when the
truncated value is outside the range of a 32-bit `int`. -/
def toInt (q : ℚ) : Option Int :=
  let t := Int.tdiv q.num q.den
  if -2147483648 ≤ t ∧ t ≤ 2147483647 then some t else none

/-- The grid pattern on the plane (lines 239-243): `dx % 2 || dy % 2 || dz % 2`
selects the fixed colour, otherwise the diffuse colour of the material. -/
def planeGrid (mat : Material) (point : Vector3) : Option Colour := do
  let dx ← toInt (point.x / 2)
  let dy ← toInt (point.y / 2)
  let dz ← toInt (point.z / 2)
  pure (if Int.tmod dx 2 ≠ 0 ∨ Int.tmod dy 2 ≠ 0 ∨ Int.tmod dz 2 ≠ 0
        then (⟨1/10, 1/10, 1/10⟩ : Colour) else mat.diffuse)

/-- The local `lightVector` of line 255. -/
def lightVector (M : Maths) (light : Light) (hit : RayHitResult) : Vector3 :=
  M.Normalise (light.position - hit.point)

/-- The local `diffReflection` of lines 258-259. -/
def diffReflection (M : Maths) (mat : Material) (light : Light) (hit : RayHitResult) : Colour :=
  let cosAngle := (lightVector M light hit).DotProduct hit.normal
  mat.diffuse * light.colour * cosAngle

/-- The local `specular` of lines 272-276 (Blinn-Phong). -/
def specular (M : Maths) (mat : Material) (light : Light) (campos : Vector3)
    (hit : RayHitResult) : Colour :=
  let viewDirectionVector := M.Normalise (campos - hit.point)
  let lightPlusViewVector := lightVector M light hit + viewDirectionVector
  let halfVector := lightPlusViewVector / M.Norm lightPlusViewVector
  let halfAngle := max (min (halfVector.DotProduct hit.normal) 1) 0
  mat.specular * light.colour * M.pow halfAngle mat.specPower

/-- `RayTracer::CalculateLighting` (lines 226-290). -/
def CalculateLighting (M : Maths) (m_traceflag : Nat) (lights : List Light)
    (campos : Vector3) (hitresult : RayHitResult) : Option Colour :=
  match hitresult.data with
  | none => none
  | some prim =>
    let mat := prim.material
    let outcolour : Option Colour := some mat.ambient
    let outcolour : Option Colour :=
      if prim.m_primtype = PrimType.Plane then planeGrid mat hitresult.point else outcolour
    if hasFlag m_traceflag TRACE_DIFFUSE_AND_SPEC ∧ prim.m_primtype ≠ PrimType.Plane then
      -- `for (int i = 0; i < 1; i++)` reads `lit_iter[0]` only
      match lights.head? with
      | none => none
      | some light => do
        let c ← outcolour
        pure (c + specular M mat light campos hitresult + diffReflection M mat light hitresult)
    else outcolour

/-! ## TraceScene -/

/-- What an invocation of `TraceScene` does besides computing a colour. -/
inductive Event where
  /-- A call `pScene->IntersectByRay (ray)`. -/
  | query (ray : Ray)
  /-- A recursive call of `TraceScene`, made by an invocation entered with trace
  level `caller`, passing trace level `callee`. -/
  | call (caller callee : Int) (ray : Ray)
deriving DecidableEq

/-- The colour an invocation returns (`none`: undefined) and the events it
produced. When the colour is defined no step of the invocation was undefined and
the log is what the code does; when the colour is `none` the log may run past
the point where the code stops being defined. -/
structure Traced where
  colour : Option Colour
  log : List Event
deriving DecidableEq

/-- The test `m_primtype == PRIMTYPE_Sphere || m_primtype == PRIMTYPE_Box`. -/
def sphereOrBox (prim : Primitive) : Bool :=
  prim.m_primtype = PrimType.Sphere || prim.m_primtype = PrimType.Box

/-- The ray `reflectiveRay` of lines 173-176. -/
def reflectiveRay (M : Maths) (ray : Ray) (result : RayHitResult) : Ray :=
  let rayDirection := M.Reflect ray.direction result.normal
  let rayOrigin := result.point
  ⟨rayOrigin + rayDirection, rayDirection⟩

/-- The ray `refractionRay` of lines 190-193. -/
def refractionRay (M : Maths) (ray : Ray) (result : RayHitResult) : Ray :=
  let rayDirection := M.Refract ray.direction result.normal (9/10)
  ⟨result.point + rayDirection * (1/100 : ℚ), rayDirection⟩

/-- The ray `shadowTest` of lines 208-211. -/
def shadowTest (light : Light) (result : RayHitResult) : Ray :=
  let rayDirection := light.position - result.point
  let rayOrigin := result.point + rayDirection * (1/10000 : ℚ)
  ⟨rayOrigin, rayDirection⟩

/-- One iteration of the loop over the lights (lines 207-219): the shadow ray is
intersected with the scene and the material of `shadow.data` is read. -/
def shadowStep (scene : Scene) (result : RayHitResult) (acc : Traced) (light : Light) : Traced :=
  let shadow := scene.IntersectByRay (shadowTest light result)
  let outcolour : Option Colour :=
    match shadow.data with
    | none => none
    | some occluder =>
      if occluder.material.castShadow = true
      then acc.colour.map (fun (c : Colour) => c * (1/2 : ℚ))
      else acc.colour
  ⟨outcolour, acc.log ++ [Event.query (shadowTest light result)]⟩

/-- The `if (m_traceflag & TRACE_SHADOW)` block (lines 200-221). -/
def shadowPass (m_traceflag : Nat) (scene : Scene) (result : RayHitResult) (acc : Traced) : Traced :=
  if hasFlag m_traceflag TRACE_SHADOW then scene.lights.foldl (shadowStep scene result) acc
  else acc

/-- `RayTracer::TraceScene` (lines 145-224). The local `tracelevel` is
decremented in place by each `--tracelevel`; `tl1` is its value after the
reflection block. -/
def TraceScene (M : Maths) (m_traceflag : Nat) (scene : Scene) (ray : Ray) (incolour : Colour)
    (tracelevel : Int) (shadowray : Bool) : Traced :=
  if _h : tracelevel ≤ 0 then ⟨some incolour, []⟩
  else
    let result := scene.IntersectByRay ray
    match result.data with
    | none => ⟨none, [Event.query ray]⟩
    | some prim =>
      let outcolour0 := CalculateLighting M m_traceflag scene.lights scene.camera.position result
      -- reflection block
      let doReflect : Bool := hasFlag m_traceflag TRACE_REFLECTION && sphereOrBox prim
      let tl1 : Int := if doReflect then tracelevel - 1 else tracelevel
      let afterReflect : Traced :=
        if doReflect then
          let r := TraceScene M m_traceflag scene (reflectiveRay M ray result) incolour
            (tracelevel - 1) shadowray
          ⟨(do let a ← r.colour; let b ← outcolour0; pure (a * b)),
            [Event.query ray, Event.call tracelevel (tracelevel - 1) (reflectiveRay M ray result)]
              ++ r.log⟩
        else ⟨outcolour0, [Event.query ray]⟩
      -- refraction block
      let doRefract : Bool := hasFlag m_traceflag TRACE_REFRACTION && sphereOrBox prim
      let afterRefract : Traced :=
        if doRefract then
          let r := TraceScene M m_traceflag scene (refractionRay M ray result) incolour
            (tl1 - 1) shadowray
          ⟨(do let a ← afterReflect.colour; let b ← r.colour;
               pure (a * (2/10 : ℚ) + b * (8/10 : ℚ))),
            afterReflect.log ++ [Event.call tracelevel (tl1 - 1) (refractionRay M ray result)]
              ++ r.log⟩
        else afterReflect
      shadowPass m_traceflag scene result afterRefract
termination_by tracelevel.toNat
decreasing_by
  all_goals simp_wf
  all_goals omega

/-! ## DoRayTrace -/

/-- A call `WriteRGBToFramebuffer (colour, x, y)`. -/
structure PixelWrite where
  colour : Option Colour
  x : Nat
  y : Nat
deriving DecidableEq

/-- The members of `RayTracer` the code reads and writes; the framebuffer is
the list of the writes made to it, oldest first. -/
structure RayTracer where
  m_buffWidth : Int
  m_buffHeight : Int
  m_renderCount : Int
  m_traceLevel : Int
  m_traceflag : Nat
  m_framebuffer : List PixelWrite
deriving DecidableEq

/-- The local `start` of lines 79-84. -/
def viewStart (scene : Scene) : Vector3 :=
  let cam := scene.camera
  ⟨cam.viewCentre.x - ((scene.sceneWidth * cam.rightVector.x)
      + (scene.sceneHeight * cam.upVector.x)) / 2,
   cam.viewCentre.y - ((scene.sceneWidth * cam.rightVector.y)
      + (scene.sceneHeight * cam.upVector.y)) / 2,
   cam.viewCentre.z - ((scene.sceneWidth * cam.rightVector.z)
      + (scene.sceneHeight * cam.upVector.z)) / 2⟩

/-- The local `pixel` of lines 107-112 for row `i`, column `j` and offsets `x`, `y`. -/
def samplePoint (rt : RayTracer) (scene : Scene) (i j : Nat) (x y : ℚ) : Vector3 :=
  let cam := scene.camera
  let pixelDX := scene.sceneWidth / rt.m_buffWidth
  let pixelDY := scene.sceneHeight / rt.m_buffHeight
  let start := viewStart scene
  ⟨start.x + (i + x) * cam.upVector.x * pixelDY + (j + y) * cam.rightVector.x * pixelDX,
   start.y + (i + x) * cam.upVector.y * pixelDY + (j + y) * cam.rightVector.y * pixelDX,
   start.z + (i + x) * cam.upVector.z * pixelDY + (j + y) * cam.rightVector.z * pixelDX⟩

/-- The local `viewray` of lines 119-120. -/
def viewray (M : Maths) (rt : RayTracer) (scene : Scene) (i j : Nat) (x y : ℚ) : Ray :=
  ⟨scene.camera.position, M.Normalise (samplePoint rt scene i j x y - scene.camera.position)⟩

/-- The values the loop variables `x` and `y` take: `0.25f`, stepped by `0.25f`
while `<= 1.f` (all four are exact in binary floating point). -/
def subSampleOffsets : List ℚ := [1/4, 1/2, 3/4, 1]

/-- The colour `TraceScene` returns for one sub-sample (line 129); the call
leaves the last parameter to its default, which the body only passes on. -/
def sampleColour (M : Maths) (rt : RayTracer) (scene : Scene) (i j : Nat) (x y : ℚ) :
    Option Colour :=
  (TraceScene M rt.m_traceflag scene (viewray M rt scene i j x y) scene.background
    rt.m_traceLevel false).colour

/-- The two anti-aliasing loops of lines 102-132 for pixel `(i, j)`: the value
of the variable `colour` when they end, each iteration assigning to it. Its
value before the loops never reaches the framebuffer. -/
def antiAlias (M : Maths) (rt : RayTracer) (scene : Scene) (i j : Nat) : Option Colour :=
  subSampleOffsets.foldl
    (fun colour x => subSampleOffsets.foldl
      (fun _ y => sampleColour M rt scene i j x y) colour)
    none

/-- `RayTracer::DoRayTrace` (lines 58-143); rows and columns are visited in
increasing order. -/
def DoRayTrace (M : Maths) (rt : RayTracer) (scene : Scene) : RayTracer :=
  if rt.m_renderCount = 0 then
    let fb := (List.range rt.m_buffHeight.toNat).foldl
      (fun fb i => (List.range rt.m_buffWidth.toNat).foldl
        (fun fb j => fb ++ [PixelWrite.mk (antiAlias M rt scene i j) j i]) fb)
      rt.m_framebuffer
    { rt with m_framebuffer := fb, m_renderCount := rt.m_renderCount + 1 }
  else rt

/-! ## Reading a log -/


/-- The levels of the recursive calls recorded in a log: caller and callee. -/
def callLevels (log : List Event) : List (Int × Int) :=
  log.filterMap (fun e => match e with
    | Event.call caller callee _ => some (caller, callee)
    | Event.query _ => none)

/-- The rays of the intersection queries recorded in a log. -/
def queries (log : List Event) : List Ray :=
  log.filterMap (fun e => match e with
    | Event.query ray => some ray
    | Event.call _ _ _ => none)

/-! ## Statements of the specification, in its own words -/

/-- The arithmetic average of a list of colours, undefined when one of them is
undefined or the list is empty (the averaging contract of the specification). -/
def averageColour (cs : List (Option Colour)) : Option Colour :=
  if cs = [] then none
  else (cs.foldl (fun acc c => do let a ← acc; let b ← c; pure (a + b))
    (some ⟨0, 0, 0⟩)).map (fun total => total / (cs.length : ℚ))

/-- The colours of the sixteen sub-samples of pixel `(i, j)`, in the order the
loops evaluate them. -/
def subSampleColours (M : Maths) (rt : RayTracer) (scene : Scene) (i j : Nat) :
    List (Option Colour) :=
  subSampleOffsets.flatMap (fun x => subSampleOffsets.map (fun y => sampleColour M rt scene i j x y))

/-- Squared distance between two points; comparing squared distances is
comparing distances. -/
def distSq (a b : Vector3) : ℚ := (a - b).DotProduct (a - b)

/-- The cell index of a coordinate: the coordinate halved, truncated toward zero. -/
def cellIndex (q : ℚ) : Int := Int.tdiv (q / 2).num (q / 2).den

/-! ## Concrete inputs -/

/-- Modelled from the spec: a square root on the rationals, exact on the square
of a rational and rounded down to a multiple of `1 / den` elsewhere. -/
def sqrtQ (q : ℚ) : ℚ := (Nat.sqrt (q.num.toNat * q.den) : ℚ) / (q.den : ℚ)

/-- Modelled from the spec: one instance of the numeric operations of the absent
`Vector3` class (norm, normalisation, mirror reflection, Snell refraction with
the zero vector on total internal reflection, natural powers), used where a
concrete input is evaluated. -/
def mathsQ : Maths where
  Norm v := sqrtQ (v.DotProduct v)
  Normalise v := v / sqrtQ (v.DotProduct v)
  Reflect v n := v - n * (2 * v.DotProduct n)
  Refract v n r :=
    let cosi := - v.DotProduct n
    let k := 1 - r * r * (1 - cosi * cosi)
    if k < 0 then ⟨0, 0, 0⟩ else v * r + n * (r * cosi - sqrtQ k)
  pow b e := b ^ e.floor.toNat

/-- A camera at `(0, 0, -5)` looking along `+z`. -/
def cameraZ : Camera :=
  { position := ⟨0, 0, -5⟩, rightVector := ⟨1, 0, 0⟩, upVector := ⟨0, 1, 0⟩,
    viewVector := ⟨0, 0, 1⟩, viewCentre := ⟨0, 0, -4⟩ }

/-- A red material that casts shadows. -/
def redMaterial : Material :=
  { ambient := ⟨1, 0, 0⟩, diffuse := ⟨1, 0, 0⟩, specular := ⟨0, 0, 0⟩, specPower := 1,
    castShadow := true }

/-- A blue material that casts shadows. -/
def blueMaterial : Material :=
  { ambient := ⟨0, 0, 1⟩, diffuse := ⟨0, 0, 1⟩, specular := ⟨0, 0, 0⟩, specPower := 1,
    castShadow := true }

/-- The primary ray from the camera `cameraZ` along its view vector. -/
def primaryRay : Ray := ⟨⟨0, 0, -5⟩, ⟨0, 0, 1⟩⟩

/-- A scene without primitives: every ray misses. The background is grey. -/
def emptyScene : Scene :=
  { camera := cameraZ, sceneWidth := 2, sceneHeight := 2, background := ⟨1/2, 1/2, 1/2⟩,
    lights := [], IntersectByRay := fun _ => ⟨none, ⟨0, 0, 0⟩, ⟨0, 0, 0⟩⟩ }

/-- A scene seen from inside a red sphere: every ray hits the sphere. -/
def insideSphereScene : Scene :=
  { camera := cameraZ, sceneWidth := 2, sceneHeight := 2, background := ⟨1/2, 1/2, 1/2⟩,
    lights := [],
    IntersectByRay := fun _ => ⟨some ⟨PrimType.Sphere, redMaterial⟩, ⟨0, 0, 1⟩, ⟨0, 0, -1⟩⟩ }

/-- A hard vertical edge: rays heading to the right of the camera (positive `x`)
hit a red sphere, all others a blue sphere. -/
def edgeScene : Scene :=
  { camera := { position := ⟨0, 0, 0⟩, rightVector := ⟨1, 0, 0⟩, upVector := ⟨0, 1, 0⟩,
                viewVector := ⟨0, 0, 1⟩, viewCentre := ⟨0, 0, 1⟩ },
    sceneWidth := 2, sceneHeight := 2, background := ⟨1/2, 1/2, 1/2⟩, lights := [],
    IntersectByRay := fun ray =>
      if 0 < ray.direction.x then ⟨some ⟨PrimType.Sphere, redMaterial⟩, ray.direction, ⟨0, 0, -1⟩⟩
      else ⟨some ⟨PrimType.Sphere, blueMaterial⟩, ray.direction, ⟨0, 0, -1⟩⟩ }

/-- A renderer with a framebuffer of one pixel, constructed by
`RayTracer (1, 1)`: trace level 5, flag `TRACE_AMBIENT`, nothing rendered. -/
def onePixelTracer : RayTracer :=
  { m_buffWidth := 1, m_buffHeight := 1, m_renderCount := 0, m_traceLevel := 5,
    m_traceflag := TRACE_AMBIENT, m_framebuffer := [] }

/-- A material with black ambient, red diffuse and no specular colour. -/
def matteRed : Material :=
  { ambient := ⟨0, 0, 0⟩, diffuse := ⟨1, 0, 0⟩, specular := ⟨0, 0, 0⟩, specPower := 1,
    castShadow := true }

/-- A white light between the camera `cameraZ` and the origin. -/
def frontLight : Light := ⟨⟨0, 0, -3⟩, ⟨1, 1, 1⟩⟩

/-- A white light behind and above the unit sphere, seen from the camera
`cameraZ`: at distance 10 from the front point `(0, 0, -1)` of the sphere. -/
def backLight : Light := ⟨⟨0, 8, 5⟩, ⟨1, 1, 1⟩⟩

/-- The hit of `primaryRay` on the unit sphere at the origin: the point of the
sphere nearest to the camera, with its outward normal. -/
def sphereFrontHit : RayHitResult := ⟨some ⟨PrimType.Sphere, matteRed⟩, ⟨0, 0, -1⟩, ⟨0, 0, -1⟩⟩

/-- The unit sphere at the origin lit by `frontLight`, as rays along the `z`
axis meet it: a ray heading to `+z` from in front of the sphere hits its front
point, every other ray misses. -/
def litSphereScene : Scene :=
  { camera := cameraZ, sceneWidth := 2, sceneHeight := 2, background := ⟨1/2, 1/2, 1/2⟩,
    lights := [frontLight],
    IntersectByRay := fun ray =>
      if ray.origin.z < -1 ∧ 0 < ray.direction.z then sphereFrontHit
      else ⟨none, ⟨0, 0, 0⟩, ⟨0, 0, 0⟩⟩ }

/-- The scene `litSphereScene` with a shadow-casting box behind the light and
the camera, its face at `z = -8`: a ray heading to `-z` from beyond that face
hits the box there. -/
def farBoxScene : Scene :=
  { camera := cameraZ, sceneWidth := 2, sceneHeight := 2, background := ⟨1/2, 1/2, 1/2⟩,
    lights := [frontLight],
    IntersectByRay := fun ray =>
      if ray.origin.z < -1 ∧ 0 < ray.direction.z then sphereFrontHit
      else if -8 < ray.origin.z ∧ ray.direction.z < 0 then
        ⟨some ⟨PrimType.Box, blueMaterial⟩, ⟨0, 0, -8⟩, ⟨0, 0, 1⟩⟩
      else ⟨none, ⟨0, 0, 0⟩, ⟨0, 0, 0⟩⟩ }

/-- A hit on a plane with the red material at the point `p`. -/
def planeHitAt (p : Vector3) : RayHitResult := ⟨some ⟨PrimType.Plane, redMaterial⟩, p, ⟨0, 1, 0⟩⟩

/-- A floor plane lit by `frontLight`: every ray heading to `+z` hits it at the
origin, every other ray misses. -/
def floorScene : Scene :=
  { camera := cameraZ, sceneWidth := 2, sceneHeight := 2, background := ⟨1/2, 1/2, 1/2⟩,
    lights := [frontLight],
    IntersectByRay := fun ray =>
      if 0 < ray.direction.z then planeHitAt ⟨0, 0, 0⟩ else ⟨none, ⟨0, 0, 0⟩, ⟨0, 0, 0⟩⟩ }

/-- Every flag of the mask, the configuration of the default constructor. -/
def allFlags : Nat :=
  TRACE_AMBIENT ||| TRACE_DIFFUSE_AND_SPEC ||| TRACE_SHADOW ||| TRACE_REFLECTION
    ||| TRACE_REFRACTION

/-- The clamp of the specification: a scalar limited to the interval from 0 to 1. -/
def clamp01 (x : ℚ) : ℚ := if x < 0 then 0 else if 1 < x then 1 else x

/-- A white light above and in front of the unit sphere: at distance 5 from the
front point `(0, 0, -1)` of the sphere, on the side of its outward normal. -/
def sideLight : Light := ⟨⟨0, 3, -5⟩, ⟨1, 1, 1⟩⟩

/-- The hit of the shadow ray toward `sideLight` on a small shadow-casting box
half way between the front point of the sphere and the light. -/
def boxHit : RayHitResult := ⟨some ⟨PrimType.Box, blueMaterial⟩, ⟨0, 3/2, -3⟩, ⟨0, 0, 1⟩⟩

/-- The unit sphere at the origin lit by `sideLight`, with a small box between
the front point of the sphere and the light, off the axis of the camera: a ray
along the `z` axis heading to `+z` from in front of the sphere hits the front
point of the sphere; a ray climbing from below the box hits the box; every
other ray misses. -/
def shadowedSphereScene : Scene :=
  { camera := cameraZ, sceneWidth := 2, sceneHeight := 2, background := ⟨1/2, 1/2, 1/2⟩,
    lights := [sideLight],
    IntersectByRay := fun ray =>
      if ray.origin.y = 0 ∧ ray.direction.y = 0 ∧ ray.origin.z < -1 ∧ 0 < ray.direction.z
      then sphereFrontHit
      else if ray.origin.y < 3/2 ∧ 0 < ray.direction.y then boxHit
      else ⟨none, ⟨0, 0, 0⟩, ⟨0, 0, 0⟩⟩ }

/-- A material with a specular colour, `(1, 1/2, 0)`, and specular power 2. -/
def shinyMaterial : Material :=
  { ambient := ⟨0, 0, 0⟩, diffuse := ⟨1, 0, 0⟩, specular := ⟨1, 1/2, 0⟩, specPower := 2,
    castShadow := true }

/-- The front point of the unit sphere, as `sphereFrontHit`, on a sphere of the
material `shinyMaterial`. -/
def shinyFrontHit : RayHitResult :=
  ⟨some ⟨PrimType.Sphere, shinyMaterial⟩, ⟨0, 0, -1⟩, ⟨0, 0, -1⟩⟩

/-- A white light high above the camera side of the sphere: at distance 25 from
the front point `(0, 0, -1)`, in the direction `(0, 24/25, -7/25)`. -/
def highLight : Light := ⟨⟨0, 24, -8⟩, ⟨1, 1, 1⟩⟩

/-! ## Unfolding `TraceScene` -/

theorem TraceScene_nonpos (M : Maths) (f : Nat) (scene : Scene) (ray : Ray) (c : Colour)
    (tl : Int) (s : Bool) (h : tl ≤ 0) :
    TraceScene M f scene ray c tl s = ⟨some c, []⟩ := by
  rw [TraceScene]
  simp [h]

theorem TraceScene_miss (M : Maths) (f : Nat) (scene : Scene) (ray : Ray) (c : Colour)
    (tl : Int) (s : Bool) (h : 0 < tl) (hd : (scene.IntersectByRay ray).data = none) :
    TraceScene M f scene ray c tl s = ⟨none, [Event.query ray]⟩ := by
  rw [TraceScene]
  simp [not_le.mpr h, hd]

theorem TraceScene_hit (M : Maths) (f : Nat) (scene : Scene) (ray : Ray) (c : Colour)
    (tl : Int) (s : Bool) (prim : Primitive) (h : 0 < tl)
    (hd : (scene.IntersectByRay ray).data = some prim) :
    TraceScene M f scene ray c tl s =
      let result := scene.IntersectByRay ray
      let outcolour0 := CalculateLighting M f scene.lights scene.camera.position result
      let doReflect : Bool := hasFlag f TRACE_REFLECTION && sphereOrBox prim
      let tl1 : Int := if doReflect then tl - 1 else tl
      let afterReflect : Traced :=
        if doReflect then
          let r := TraceScene M f scene (reflectiveRay M ray result) c (tl - 1) s
          ⟨(do let a ← r.colour; let b ← outcolour0; pure (a * b)),
            [Event.query ray, Event.call tl (tl - 1) (reflectiveRay M ray result)] ++ r.log⟩
        else ⟨outcolour0, [Event.query ray]⟩
      let doRefract : Bool := hasFlag f TRACE_REFRACTION && sphereOrBox prim
      let afterRefract : Traced :=
        if doRefract then
          let r := TraceScene M f scene (refractionRay M ray result) c (tl1 - 1) s
          ⟨(do let a ← afterReflect.colour; let b ← r.colour;
               pure (a * (2/10 : ℚ) + b * (8/10 : ℚ))),
            afterReflect.log ++ [Event.call tl (tl1 - 1) (refractionRay M ray result)] ++ r.log⟩
        else afterReflect
      shadowPass f scene result afterRefract := by
  rw [TraceScene]
  simp only [not_le.mpr h, hd, dite_false, ↓reduceDIte]

/-! ## Vector arithmetic on components -/

theorem Vector3.add_def (a b : Vector3) : a + b = ⟨a.x + b.x, a.y + b.y, a.z + b.z⟩ := rfl

theorem Vector3.sub_def (a b : Vector3) : a - b = ⟨a.x - b.x, a.y - b.y, a.z - b.z⟩ := rfl

theorem Vector3.mul_def (a b : Vector3) : a * b = ⟨a.x * b.x, a.y * b.y, a.z * b.z⟩ := rfl

theorem Vector3.scale_def (a : Vector3) (s : ℚ) : a * s = ⟨a.x * s, a.y * s, a.z * s⟩ := rfl

theorem Vector3.divide_def (a : Vector3) (s : ℚ) : a / s = ⟨a.x / s, a.y / s, a.z / s⟩ := rfl

/-! ## The base case -/

/-- C1: for every scene, ray and incoming colour `c`, `TraceScene` called with
trace level 0 returns exactly `c`, and its log is empty: it performs no
intersection query (and no recursive call). -/
theorem C1_level_zero_returns_incolour (M : Maths) (f : Nat) (scene : Scene) (ray : Ray)
    (c : Colour) (s : Bool) :
    (TraceScene M f scene ray c 0 s).colour = some c
      ∧ queries (TraceScene M f scene ray c 0 s).log = []
      ∧ (TraceScene M f scene ray c 0 s).log = [] := by
  rw [TraceScene_nonpos M f scene ray c 0 s (le_refl 0)]
  exact ⟨rfl, rfl, rfl⟩

/-! ## A ray that misses -/

/-- C2 (the code at a failing input): in a scene without primitives, at every
trace level `n + 1`, for every flag configuration, ray and incoming colour,
`TraceScene` makes its intersection query and then reaches the end of the
function without a `return`: no colour is defined, in particular not the
background colour of the scene. -/
theorem C2_miss_returns_no_colour (M : Maths) (f : Nat) (ray : Ray) (c : Colour) (n : Nat)
    (s : Bool) :
    TraceScene M f emptyScene ray c (n + 1) s = ⟨none, [Event.query ray]⟩
      ∧ (TraceScene M f emptyScene ray c (n + 1) s).colour ≠ some emptyScene.background := by
  have h := TraceScene_miss M f emptyScene ray c (n + 1) s (by omega) rfl
  rw [h]
  exact ⟨rfl, by simp⟩

/-! ## Sub-samples of a pixel -/

theorem antiAlias_eq_last (M : Maths) (rt : RayTracer) (scene : Scene) (i j : Nat) :
    antiAlias M rt scene i j = sampleColour M rt scene i j 1 1 := by
  simp [antiAlias, subSampleOffsets]

theorem hasFlag_ambient_only :
    hasFlag TRACE_AMBIENT TRACE_DIFFUSE_AND_SPEC = false
      ∧ hasFlag TRACE_AMBIENT TRACE_SHADOW = false
      ∧ hasFlag TRACE_AMBIENT TRACE_REFLECTION = false
      ∧ hasFlag TRACE_AMBIENT TRACE_REFRACTION = false := by
  decide

theorem TraceScene_ambient_only (M : Maths) (scene : Scene) (ray : Ray) (c : Colour)
    (tl : Int) (s : Bool) (prim : Primitive) (h : 0 < tl)
    (hd : (scene.IntersectByRay ray).data = some prim)
    (hp : prim.m_primtype ≠ PrimType.Plane) :
    TraceScene M TRACE_AMBIENT scene ray c tl s
      = ⟨some prim.material.ambient, [Event.query ray]⟩ := by
  rw [TraceScene_hit M TRACE_AMBIENT scene ray c tl s prim h hd]
  obtain ⟨h1, h2, h3, h4⟩ := hasFlag_ambient_only
  simp [h1, h2, h3, h4, shadowPass, CalculateLighting, hd, hp]

theorem sampleColour_edge (x y : ℚ) :
    sampleColour mathsQ onePixelTracer edgeScene 0 0 x y
      = some (if 0 < (viewray mathsQ onePixelTracer edgeScene 0 0 x y).direction.x
          then redMaterial.ambient else blueMaterial.ambient) := by
  show (TraceScene mathsQ TRACE_AMBIENT edgeScene (viewray mathsQ onePixelTracer edgeScene 0 0 x y)
    edgeScene.background 5 false).colour = _
  by_cases hx : 0 < (viewray mathsQ onePixelTracer edgeScene 0 0 x y).direction.x
  · rw [TraceScene_ambient_only mathsQ edgeScene (viewray mathsQ onePixelTracer edgeScene 0 0 x y)
      edgeScene.background 5 false ⟨PrimType.Sphere, redMaterial⟩
      (by decide)
      (by show (ite _ _ _ : RayHitResult).data = _
          rw [if_pos hx])
      (by decide)]
    simp [hx]
  · rw [TraceScene_ambient_only mathsQ edgeScene (viewray mathsQ onePixelTracer edgeScene 0 0 x y)
      edgeScene.background 5 false ⟨PrimType.Sphere, blueMaterial⟩
      (by decide)
      (by show (ite _ _ _ : RayHitResult).data = _
          rw [if_neg hx])
      (by decide)]
    simp [hx]

theorem viewray_edge_x (x y : ℚ) :
    (viewray mathsQ onePixelTracer edgeScene 0 0 x y).direction.x
      = (2 * y - 1) / sqrtQ ((2 * y - 1) * (2 * y - 1) + (2 * x - 1) * (2 * x - 1) + 1) := by
  simp [viewray, samplePoint, viewStart, mathsQ, edgeScene, onePixelTracer,
    Vector3.sub_def, Vector3.divide_def, Vector3.DotProduct]
  ring_nf

theorem sqrtQ_nonneg (q : ℚ) : 0 ≤ sqrtQ q := by
  unfold sqrtQ
  positivity

theorem sqrtQ_pos (q : ℚ) (h : 0 < q) : 0 < sqrtQ q := by
  unfold sqrtQ
  have hn : 0 < q.num := Rat.num_pos.mpr h
  have hd : 0 < q.den := q.den_pos
  have h1 : 0 < q.num.toNat * q.den := Nat.mul_pos (by omega) hd
  have h2 : 0 < Nat.sqrt (q.num.toNat * q.den) := Nat.sqrt_pos.mpr h1
  have h3 : (0 : ℚ) < (Nat.sqrt (q.num.toNat * q.den) : ℚ) := by exact_mod_cast h2
  have h4 : (0 : ℚ) < (q.den : ℚ) := by exact_mod_cast hd
  exact div_pos h3 h4

theorem sampleColour_edge_right (x y : ℚ) (hy : 1 < 2 * y) :
    sampleColour mathsQ onePixelTracer edgeScene 0 0 x y = some ⟨1, 0, 0⟩ := by
  rw [sampleColour_edge, viewray_edge_x, if_pos]
  · rfl
  · apply div_pos (by linarith)
    apply sqrtQ_pos
    nlinarith [mul_self_nonneg (2 * y - 1), mul_self_nonneg (2 * x - 1)]

theorem sampleColour_edge_left (x y : ℚ) (hy : 2 * y ≤ 1) :
    sampleColour mathsQ onePixelTracer edgeScene 0 0 x y = some ⟨0, 0, 1⟩ := by
  rw [sampleColour_edge, viewray_edge_x, if_neg]
  · rfl
  · rw [not_lt]
    exact div_nonpos_of_nonpos_of_nonneg (by linarith) (sqrtQ_nonneg _)

/-- C3 (the code at a failing input): a one-pixel image of a hard edge between a
blue and a red region. Eight of the sixteen sub-samples are blue and eight are
red, so their arithmetic average is `(1/2, 0, 1/2)`; `DoRayTrace` writes the red
of the sub-sample evaluated last (offsets 1.0, 1.0) to the framebuffer. -/
theorem C3_pixel_is_last_subsample (M : Maths) :
    (DoRayTrace mathsQ onePixelTracer edgeScene).m_framebuffer
        = [PixelWrite.mk (some ⟨1, 0, 0⟩) 0 0]
      ∧ averageColour (subSampleColours mathsQ onePixelTracer edgeScene 0 0)
        = some ⟨1/2, 0, 1/2⟩
      ∧ ∀ (rt : RayTracer) (scene : Scene) (i j : Nat),
          antiAlias M rt scene i j = sampleColour M rt scene i j 1 1 := by
  refine ⟨?_, ?_, antiAlias_eq_last M⟩
  · have h : (DoRayTrace mathsQ onePixelTracer edgeScene).m_framebuffer
        = [PixelWrite.mk (antiAlias mathsQ onePixelTracer edgeScene 0 0) 0 0] := rfl
    rw [h, antiAlias_eq_last, sampleColour_edge_right 1 1 (by norm_num)]
  · have l (x : ℚ) : sampleColour mathsQ onePixelTracer edgeScene 0 0 x (1/4) = some ⟨0, 0, 1⟩ :=
      sampleColour_edge_left x _ (by norm_num)
    have l2 (x : ℚ) : sampleColour mathsQ onePixelTracer edgeScene 0 0 x (1/2) = some ⟨0, 0, 1⟩ :=
      sampleColour_edge_left x _ (by norm_num)
    have r (x : ℚ) : sampleColour mathsQ onePixelTracer edgeScene 0 0 x (3/4) = some ⟨1, 0, 0⟩ :=
      sampleColour_edge_right x _ (by norm_num)
    have r2 (x : ℚ) : sampleColour mathsQ onePixelTracer edgeScene 0 0 x 1 = some ⟨1, 0, 0⟩ :=
      sampleColour_edge_right x _ (by norm_num)
    simp only [subSampleColours, subSampleOffsets, List.flatMap_cons, List.flatMap_nil,
      List.map_cons, List.map_nil, l, l2, r, r2, List.append_nil, List.cons_append,
      List.nil_append]
    simp [averageColour, Vector3.add_def, Vector3.divide_def]
    norm_num

/-! ## Recursive calls and their levels -/

theorem callLevels_append (l1 l2 : List Event) :
    callLevels (l1 ++ l2) = callLevels l1 ++ callLevels l2 := by
  simp [callLevels, List.filterMap_append]

theorem callLevels_shadowStep (scene : Scene) (result : RayHitResult) (acc : Traced)
    (light : Light) :
    callLevels (shadowStep scene result acc light).log = callLevels acc.log := by
  simp [shadowStep, callLevels, List.filterMap_append]

theorem callLevels_shadowFold (scene : Scene) (result : RayHitResult) (lights : List Light)
    (acc : Traced) :
    callLevels (lights.foldl (shadowStep scene result) acc).log = callLevels acc.log := by
  induction lights generalizing acc with
  | nil => rfl
  | cons light rest ih => rw [List.foldl_cons, ih, callLevels_shadowStep]

theorem callLevels_shadowPass (f : Nat) (scene : Scene) (result : RayHitResult) (acc : Traced) :
    callLevels (shadowPass f scene result acc).log = callLevels acc.log := by
  unfold shadowPass
  split
  · exact callLevels_shadowFold scene result scene.lights acc
  · rfl

/-- The recursive calls of an invocation that hits a primitive: the reflection
call and what it triggers, then the refraction call and what it triggers. -/
theorem callLevels_TraceScene_hit (M : Maths) (f : Nat) (scene : Scene) (ray : Ray) (c : Colour)
    (tl : Int) (s : Bool) (prim : Primitive) (h : 0 < tl)
    (hd : (scene.IntersectByRay ray).data = some prim) :
    callLevels (TraceScene M f scene ray c tl s).log =
      (if (hasFlag f TRACE_REFLECTION && sphereOrBox prim) = true then
        (tl, tl - 1) :: callLevels (TraceScene M f scene
          (reflectiveRay M ray (scene.IntersectByRay ray)) c (tl - 1) s).log
       else [])
      ++ (if (hasFlag f TRACE_REFRACTION && sphereOrBox prim) = true then
        (tl, (if (hasFlag f TRACE_REFLECTION && sphereOrBox prim) = true then tl - 1 else tl) - 1)
          :: callLevels (TraceScene M f scene
            (refractionRay M ray (scene.IntersectByRay ray)) c
            ((if (hasFlag f TRACE_REFLECTION && sphereOrBox prim) = true then tl - 1 else tl) - 1)
            s).log
       else []) := by
  rw [TraceScene_hit M f scene ray c tl s prim h hd]
  simp only []
  rw [callLevels_shadowPass]
  by_cases h1 : (hasFlag f TRACE_REFLECTION && sphereOrBox prim) = true
    <;> by_cases h2 : (hasFlag f TRACE_REFRACTION && sphereOrBox prim) = true
    <;> simp [h1, h2, callLevels, List.filterMap_append]

theorem callLevels_TraceScene_nonpos (M : Maths) (f : Nat) (scene : Scene) (ray : Ray)
    (c : Colour) (tl : Int) (s : Bool) (h : tl ≤ 0) :
    callLevels (TraceScene M f scene ray c tl s).log = [] := by
  rw [TraceScene_nonpos M f scene ray c tl s h]
  rfl

theorem callLevels_insideSphere (M : Maths) (ray : Ray) (c : Colour) (tl : Int) (s : Bool)
    (h : 0 < tl) :
    callLevels (TraceScene M (TRACE_REFLECTION ||| TRACE_REFRACTION) insideSphereScene
        ray c tl s).log =
      (tl, tl - 1) :: callLevels (TraceScene M (TRACE_REFLECTION ||| TRACE_REFRACTION)
          insideSphereScene
          (reflectiveRay M ray (insideSphereScene.IntersectByRay ray)) c (tl - 1) s).log
      ++ (tl, tl - 1 - 1) :: callLevels (TraceScene M (TRACE_REFLECTION ||| TRACE_REFRACTION)
          insideSphereScene
          (refractionRay M ray (insideSphereScene.IntersectByRay ray)) c (tl - 1 - 1) s).log := by
  rw [callLevels_TraceScene_hit M _ insideSphereScene ray c tl s
    ⟨PrimType.Sphere, redMaterial⟩ h rfl]
  have h1 : (hasFlag (TRACE_REFLECTION ||| TRACE_REFRACTION) TRACE_REFLECTION
      && sphereOrBox ⟨PrimType.Sphere, redMaterial⟩) = true := by decide
  have h2 : (hasFlag (TRACE_REFLECTION ||| TRACE_REFRACTION) TRACE_REFRACTION
      && sphereOrBox ⟨PrimType.Sphere, redMaterial⟩) = true := by decide
  simp only [h1, h2, if_true]

/-- C4 (the code at a failing input): with REFLECTION and REFRACTION both
enabled, inside a sphere, an invocation at trace level 2 makes its reflection
call with level 1 and its refraction call with level 0, not 1; the nested
invocation at level 1 makes its refraction call with level -1, not 0. The pairs
are (level of the caller, level passed), in the order of the calls. -/
theorem C4_refraction_call_skips_a_level (M : Maths) (ray : Ray) (c : Colour) (s : Bool) :
    callLevels (TraceScene M (TRACE_REFLECTION ||| TRACE_REFRACTION) insideSphereScene
        ray c 2 s).log
      = [(2, 1), (1, 0), (1, -1), (2, 0)] := by
  rw [callLevels_insideSphere M ray c 2 s (by decide)]
  rw [callLevels_insideSphere M _ c (2 - 1) s (by decide)]
  rw [callLevels_TraceScene_nonpos M _ _ _ c (2 - 1 - 1) s (by decide)]
  rw [callLevels_TraceScene_nonpos M _ _ _ c (2 - 1 - 1 - 1) s (by decide)]
  rw [callLevels_TraceScene_nonpos M _ _ _ c (2 - 1 - 1) s (by decide)]
  rfl

/-- C5, as stated, fails: with maximum depth 1, REFLECTION and REFRACTION
enabled, one primary ray inside a sphere triggers two recursive invocations of
`TraceScene`. -/
theorem C5_counterexample :
    (callLevels (TraceScene mathsQ (TRACE_REFLECTION ||| TRACE_REFRACTION) insideSphereScene
        primaryRay insideSphereScene.background 1 false).log).length = 2
      ∧ ¬ ((2 : Int) ≤ 1) := by
  rw [callLevels_insideSphere mathsQ primaryRay _ 1 false (by decide)]
  rw [callLevels_TraceScene_nonpos mathsQ _ _ _ _ (1 - 1) false (by decide)]
  rw [callLevels_TraceScene_nonpos mathsQ _ _ _ _ (1 - 1 - 1) false (by decide)]
  exact ⟨rfl, by decide⟩

theorem callCount_le_aux (M : Maths) (f : Nat) (scene : Scene) (c : Colour) (s : Bool)
    (hf : ¬ (hasFlag f TRACE_REFLECTION = true ∧ hasFlag f TRACE_REFRACTION = true))
    (n : Nat) :
    ∀ (tl : Int) (ray : Ray), tl ≤ n →
      (callLevels (TraceScene M f scene ray c tl s).log).length ≤ n := by
  induction n with
  | zero =>
    intro tl ray htl
    rw [callLevels_TraceScene_nonpos M f scene ray c tl s (by simpa using htl)]
    simp
  | succ n ih =>
    intro tl ray htl
    by_cases h0 : tl ≤ 0
    · rw [callLevels_TraceScene_nonpos M f scene ray c tl s h0]
      simp
    · have hpos : 0 < tl := not_le.mp h0
      cases hd : (scene.IntersectByRay ray).data with
      | none =>
        rw [TraceScene_miss M f scene ray c tl s hpos hd]
        simp [callLevels]
      | some prim =>
        rw [callLevels_TraceScene_hit M f scene ray c tl s prim hpos hd]
        have hle : tl - 1 ≤ (n : Int) := by push_cast at htl; omega
        by_cases h1 : (hasFlag f TRACE_REFLECTION && sphereOrBox prim) = true
        · have h2 : ¬ (hasFlag f TRACE_REFRACTION && sphereOrBox prim) = true := by
            intro h2
            simp only [Bool.and_eq_true] at h1 h2
            exact hf ⟨h1.1, h2.1⟩
          simp only [if_pos h1, if_neg h2, List.append_nil, List.length_cons]
          exact Nat.succ_le_succ (ih (tl - 1) _ hle)
        · by_cases h2 : (hasFlag f TRACE_REFRACTION && sphereOrBox prim) = true
          · simp only [if_neg h1, if_pos h2, List.nil_append, List.length_cons]
            exact Nat.succ_le_succ (ih (tl - 1) _ hle)
          · simp only [if_neg h1, if_neg h2, List.append_nil, List.length_nil]
            exact Nat.zero_le _

/-- C5, amended: for every scene, every primary ray and every configuration
with maximum depth `D >= 0` in which REFLECTION and REFRACTION are not both
enabled, the total number of recursive `TraceScene` invocations (at all nesting
levels) triggered by tracing that ray is at most `D`. -/
theorem C5_call_count_le_depth (M : Maths) (f : Nat) (scene : Scene) (ray : Ray) (c : Colour)
    (D : Int) (s : Bool)
    (hf : ¬ (hasFlag f TRACE_REFLECTION = true ∧ hasFlag f TRACE_REFRACTION = true))
    (hD : 0 ≤ D) :
    ((callLevels (TraceScene M f scene ray c D s).log).length : Int) ≤ D := by
  have h := callCount_le_aux M f scene c s hf D.toNat D ray (by omega)
  omega

/-- C5, amended, at a concrete input: inside a sphere with REFLECTION alone and
maximum depth 3. -/
theorem C5_call_count_le_depth_witness :
    ¬ (hasFlag TRACE_REFLECTION TRACE_REFLECTION = true
        ∧ hasFlag TRACE_REFLECTION TRACE_REFRACTION = true)
      ∧ (0 : Int) ≤ 3
      ∧ ((callLevels (TraceScene mathsQ TRACE_REFLECTION insideSphereScene primaryRay
          insideSphereScene.background 3 false).log).length : Int) ≤ 3 :=
  ⟨by decide, by decide,
    C5_call_count_le_depth mathsQ TRACE_REFLECTION insideSphereScene primaryRay
      insideSphereScene.background 3 false (by decide) (by decide)⟩

/-! ## Shadow rays -/

theorem shadowTest_front :
    shadowTest frontLight sphereFrontHit = ⟨⟨0, 0, -10002/10000⟩, ⟨0, 0, -2⟩⟩ := by
  simp [shadowTest, frontLight, sphereFrontHit, Vector3.sub_def, Vector3.add_def,
    Vector3.scale_def]
  norm_num

/-- C6 (the code at a failing input): SHADOW enabled, the primary ray hits the
sphere, the shadow ray toward the light hits nothing. The loop reads the
material of the absent occluder, so the accumulated colour is not defined; the
claim asks for the colour to be left as it was, `(0, 0, 0)` here. -/
theorem C6_unoccluded_light_undefined (M : Maths) (c : Colour) (s : Bool) :
    (litSphereScene.IntersectByRay primaryRay).data = some ⟨PrimType.Sphere, matteRed⟩
      ∧ (litSphereScene.IntersectByRay (shadowTest frontLight sphereFrontHit)).data = none
      ∧ (shadowStep litSphereScene sphereFrontHit ⟨some ⟨0, 0, 0⟩, []⟩ frontLight).colour = none
      ∧ (TraceScene M (TRACE_AMBIENT ||| TRACE_SHADOW) litSphereScene primaryRay c 1 s).colour
          = none := by
  have hq : (litSphereScene.IntersectByRay (shadowTest frontLight sphereFrontHit)).data
      = none := by
    rw [shadowTest_front]
    norm_num [litSphereScene]
  have hp : litSphereScene.IntersectByRay primaryRay = sphereFrontHit := by
    simp [litSphereScene, primaryRay]
  have hs (acc : Traced) : (shadowStep litSphereScene sphereFrontHit acc frontLight).colour
      = none := by
    simp only [shadowStep, hq]
  refine ⟨by rw [hp]; rfl, hq, hs _, ?_⟩
  rw [TraceScene_hit M _ litSphereScene primaryRay c 1 s ⟨PrimType.Sphere, matteRed⟩
    (by decide) (by rw [hp]; rfl)]
  have h1 : hasFlag (TRACE_AMBIENT ||| TRACE_SHADOW) TRACE_REFLECTION = false := by decide
  have h2 : hasFlag (TRACE_AMBIENT ||| TRACE_SHADOW) TRACE_REFRACTION = false := by decide
  have h3 : hasFlag (TRACE_AMBIENT ||| TRACE_SHADOW) TRACE_SHADOW = true := by decide
  simp only [h1, h2, Bool.false_and, shadowPass, h3, if_true, hp]
  exact hs _

theorem farBox_shadow_hit :
    farBoxScene.IntersectByRay (shadowTest frontLight sphereFrontHit)
      = ⟨some ⟨PrimType.Box, blueMaterial⟩, ⟨0, 0, -8⟩, ⟨0, 0, 1⟩⟩ := by
  rw [shadowTest_front]
  norm_num [farBoxScene]

/-- C7, as stated, fails: the shadow ray from the sphere toward the light at
distance 2 hits a shadow-casting box at distance 7, beyond the light (squared
distances 49 and 4). The claim leaves the colour `(1, 0, 0)` unchanged; the code
halves it. -/
theorem C7_counterexample :
    (farBoxScene.IntersectByRay (shadowTest frontLight sphereFrontHit)).data
        = some ⟨PrimType.Box, blueMaterial⟩
      ∧ blueMaterial.castShadow = true
      ∧ ¬ (distSq (farBoxScene.IntersectByRay (shadowTest frontLight sphereFrontHit)).point
            sphereFrontHit.point < distSq frontLight.position sphereFrontHit.point)
      ∧ (shadowStep farBoxScene sphereFrontHit ⟨some ⟨1, 0, 0⟩, []⟩ frontLight).colour
          = some ⟨1/2, 0, 0⟩
      ∧ (shadowStep farBoxScene sphereFrontHit ⟨some ⟨1, 0, 0⟩, []⟩ frontLight).colour
          ≠ some ⟨1, 0, 0⟩ := by
  have hc : (shadowStep farBoxScene sphereFrontHit ⟨some ⟨1, 0, 0⟩, []⟩ frontLight).colour
      = some ⟨1/2, 0, 0⟩ := by
    simp only [shadowStep, farBox_shadow_hit]
    simp [blueMaterial, Vector3.scale_def]
  refine ⟨by rw [farBox_shadow_hit], rfl, ?_, hc, ?_⟩
  · rw [farBox_shadow_hit]
    norm_num [distSq, frontLight, sphereFrontHit, Vector3.sub_def, Vector3.DotProduct]
  · rw [hc]
    norm_num

/-- C7, amended: with SHADOW enabled the accumulated colour goes through
`shadowStep` once for every light, and for every hit and every light whose
shadow ray hits some primitive `P`, that step multiplies the accumulated colour
by exactly 1/2 if `P`'s material has `castsShadow == true` and leaves it
unchanged otherwise; where `P` lies relative to the light plays no part. -/
theorem C7_shadow_halves_iff_occluder_casts (f : Nat) (scene : Scene) (result : RayHitResult)
    (acc : Traced) (light : Light) (P : Primitive)
    (hf : hasFlag f TRACE_SHADOW = true)
    (hP : (scene.IntersectByRay (shadowTest light result)).data = some P) :
    shadowPass f scene result acc = scene.lights.foldl (shadowStep scene result) acc
      ∧ (shadowStep scene result acc light).colour
          = (if P.material.castShadow = true
             then acc.colour.map (fun (c : Colour) => c * (1/2 : ℚ))
             else acc.colour) := by
  refine ⟨by simp [shadowPass, hf], ?_⟩
  simp only [shadowStep, hP]

/-- C7, amended, at a concrete input: the far box of `farBoxScene` casts a
shadow, so the step for `frontLight` halves the colour. -/
theorem C7_shadow_halves_iff_occluder_casts_witness :
    hasFlag TRACE_SHADOW TRACE_SHADOW = true
      ∧ (farBoxScene.IntersectByRay (shadowTest frontLight sphereFrontHit)).data
          = some ⟨PrimType.Box, blueMaterial⟩
      ∧ (shadowStep farBoxScene sphereFrontHit ⟨some ⟨1, 1, 1⟩, []⟩ frontLight).colour
          = (if blueMaterial.castShadow = true
             then (some (⟨1, 1, 1⟩ : Colour)).map (fun (c : Colour) => c * (1/2 : ℚ))
             else some ⟨1, 1, 1⟩) :=
  ⟨by decide, by simp [farBox_shadow_hit],
    (C7_shadow_halves_iff_occluder_casts TRACE_SHADOW farBoxScene sphereFrontHit
      ⟨some ⟨1, 1, 1⟩, []⟩ frontLight ⟨PrimType.Box, blueMaterial⟩ (by decide)
      (by simp [farBox_shadow_hit])).2⟩

/-! ## Plane hits -/

theorem Vector3.scale_one (a : Vector3) : a * (1 : ℚ) = a := by
  simp [Vector3.scale_def]

theorem Vector3.scale_scale (a : Vector3) (s t : ℚ) : a * s * t = a * (s * t) := by
  simp [Vector3.scale_def, mul_assoc]

/-- The loop over the lights only attenuates: a colour it returns is the colour
it started from, halved at most once for every light. -/
theorem shadowFold_colour (scene : Scene) (result : RayHitResult) (lights : List Light) :
    ∀ (acc : Traced) (col : Colour),
      (lights.foldl (shadowStep scene result) acc).colour = some col →
      ∃ (base : Colour) (k : Nat),
        acc.colour = some base ∧ k ≤ lights.length ∧ col = base * ((1/2 : ℚ) ^ k) := by
  induction lights with
  | nil =>
    intro acc col h
    exact ⟨col, 0, h, le_refl _, by rw [pow_zero, Vector3.scale_one]⟩
  | cons light rest ih =>
    intro acc col h
    rw [List.foldl_cons] at h
    obtain ⟨base1, k1, hb, hk, hcol⟩ := ih _ col h
    cases hs : (scene.IntersectByRay (shadowTest light result)).data with
    | none => simp [shadowStep, hs] at hb
    | some occluder =>
      by_cases hc : occluder.material.castShadow = true
      · simp only [shadowStep, hs, hc, if_true, Option.map_eq_some'] at hb
        obtain ⟨base, hbase, hhalf⟩ := hb
        refine ⟨base, k1 + 1, hbase, by simpa using hk, ?_⟩
        rw [hcol, ← hhalf, Vector3.scale_scale, pow_succ, mul_comm]
      · simp only [shadowStep, hs, hc, if_false] at hb
        exact ⟨base1, k1, hb, by simp only [List.length_cons]; omega, hcol⟩

theorem sphereOrBox_plane (prim : Primitive) (hp : prim.m_primtype = PrimType.Plane) :
    sphereOrBox prim = false := by
  simp [sphereOrBox, hp]

/-- C8: for every ray whose nearest intersection is a Plane, every trace level
and every flag configuration, `TraceScene` makes no recursive call; at a trace
level that reaches the intersection (`0 < tl`) its result is `CalculateLighting`
of the hit passed through the shadow block alone, so a colour it returns is the
colour of `CalculateLighting` halved at most once for every light. -/
theorem C8_plane_hit_makes_no_recursive_call (M : Maths) (f : Nat) (scene : Scene) (ray : Ray)
    (c : Colour) (tl : Int) (s : Bool) (prim : Primitive)
    (hd : (scene.IntersectByRay ray).data = some prim)
    (hp : prim.m_primtype = PrimType.Plane) :
    callLevels (TraceScene M f scene ray c tl s).log = []
      ∧ (0 < tl →
          TraceScene M f scene ray c tl s
            = shadowPass f scene (scene.IntersectByRay ray)
                ⟨CalculateLighting M f scene.lights scene.camera.position
                  (scene.IntersectByRay ray), [Event.query ray]⟩)
      ∧ (0 < tl → ∀ col : Colour, (TraceScene M f scene ray c tl s).colour = some col →
          ∃ (base : Colour) (k : Nat),
            CalculateLighting M f scene.lights scene.camera.position (scene.IntersectByRay ray)
              = some base
            ∧ k ≤ scene.lights.length ∧ col = base * ((1/2 : ℚ) ^ k)) := by
  have hsb := sphereOrBox_plane prim hp
  have hbody : 0 < tl →
      TraceScene M f scene ray c tl s
        = shadowPass f scene (scene.IntersectByRay ray)
            ⟨CalculateLighting M f scene.lights scene.camera.position
              (scene.IntersectByRay ray), [Event.query ray]⟩ := by
    intro h
    rw [TraceScene_hit M f scene ray c tl s prim h hd]
    simp only [hsb, Bool.and_false, Bool.false_eq_true, if_false]
  refine ⟨?_, hbody, ?_⟩
  · by_cases h : 0 < tl
    · rw [callLevels_TraceScene_hit M f scene ray c tl s prim h hd]
      simp [hsb]
    · exact callLevels_TraceScene_nonpos M f scene ray c tl s (not_lt.mp h)
  · intro h col hcol
    rw [hbody h] at hcol
    unfold shadowPass at hcol
    split at hcol
    · exact shadowFold_colour scene _ scene.lights _ col hcol
    · exact ⟨col, 0, hcol, Nat.zero_le _, by rw [pow_zero, Vector3.scale_one]⟩

/-- C8 at a concrete input: the primary ray hits the floor plane, every flag is
enabled, trace level 5. -/
theorem C8_plane_hit_makes_no_recursive_call_witness :
    (floorScene.IntersectByRay primaryRay).data = some ⟨PrimType.Plane, redMaterial⟩
      ∧ callLevels (TraceScene mathsQ allFlags floorScene primaryRay floorScene.background
          5 false).log = [] :=
  ⟨by simp [floorScene, primaryRay, planeHitAt],
    (C8_plane_hit_makes_no_recursive_call mathsQ allFlags floorScene primaryRay
      floorScene.background 5 false ⟨PrimType.Plane, redMaterial⟩
      (by simp [floorScene, primaryRay, planeHitAt]) rfl).1⟩

theorem tmod_two_ne_zero_iff (d : Int) : Int.tmod d 2 ≠ 0 ↔ ¬ d % 2 = 0 :=
  not_congr ⟨fun h => Int.emod_eq_zero_of_dvd (Int.dvd_of_tmod_eq_zero h),
    fun h => Int.tmod_eq_zero_of_dvd (Int.dvd_of_emod_eq_zero h)⟩

theorem toInt_half (q : ℚ) (h : -2147483648 ≤ cellIndex q ∧ cellIndex q ≤ 2147483647) :
    toInt (q / 2) = some (cellIndex q) := by
  unfold toInt
  simp only []
  exact if_pos h

theorem planeGrid_eq (mat : Material) (p : Vector3)
    (hx : -2147483648 ≤ cellIndex p.x ∧ cellIndex p.x ≤ 2147483647)
    (hy : -2147483648 ≤ cellIndex p.y ∧ cellIndex p.y ≤ 2147483647)
    (hz : -2147483648 ≤ cellIndex p.z ∧ cellIndex p.z ≤ 2147483647) :
    planeGrid mat p
      = some (if cellIndex p.x % 2 = 0 ∧ cellIndex p.y % 2 = 0 ∧ cellIndex p.z % 2 = 0
          then mat.diffuse else ⟨1/10, 1/10, 1/10⟩) := by
  unfold planeGrid
  rw [toInt_half p.x hx, toInt_half p.y hy, toInt_half p.z hz]
  simp only [Option.bind_eq_bind, Option.some_bind, Option.pure_def, tmod_two_ne_zero_iff]
  by_cases h : cellIndex p.x % 2 = 0 ∧ cellIndex p.y % 2 = 0 ∧ cellIndex p.z % 2 = 0
  · rw [if_pos h, if_neg]
    intro h2
    rcases h2 with h2 | h2 | h2
    · exact h2 h.1
    · exact h2 h.2.1
    · exact h2 h.2.2
  · rw [if_neg h, if_pos]
    by_contra h2
    push_neg at h2
    exact h h2

theorem CalculateLighting_plane (M : Maths) (f : Nat) (lights : List Light) (campos : Vector3)
    (hit : RayHitResult) (prim : Primitive) (hd : hit.data = some prim)
    (hp : prim.m_primtype = PrimType.Plane) :
    CalculateLighting M f lights campos hit = planeGrid prim.material hit.point := by
  unfold CalculateLighting
  rw [hd]
  simp [hp]

/-- C9, as stated, fails: at the Plane hit `(0, 0, 2)` the cell indices of
`x / 2` and `y / 2` are both 0, even, and `CalculateLighting` returns the
grid-line colour, not the diffuse colour of the material: the cell index of
`z / 2` is 1. -/
theorem C9_counterexample :
    cellIndex (planeHitAt ⟨0, 0, 2⟩).point.x % 2 = 0
      ∧ cellIndex (planeHitAt ⟨0, 0, 2⟩).point.y % 2 = 0
      ∧ CalculateLighting mathsQ allFlags [frontLight] cameraZ.position (planeHitAt ⟨0, 0, 2⟩)
          = some ⟨1/10, 1/10, 1/10⟩
      ∧ CalculateLighting mathsQ allFlags [frontLight] cameraZ.position (planeHitAt ⟨0, 0, 2⟩)
          ≠ some redMaterial.diffuse := by
  have h0 : cellIndex 0 = 0 := by norm_num [cellIndex]
  have h2 : cellIndex 2 = 1 := by norm_num [cellIndex]
  have hc : CalculateLighting mathsQ allFlags [frontLight] cameraZ.position
      (planeHitAt ⟨0, 0, 2⟩) = some ⟨1/10, 1/10, 1/10⟩ := by
    rw [CalculateLighting_plane mathsQ allFlags _ _ (planeHitAt ⟨0, 0, 2⟩)
      ⟨PrimType.Plane, redMaterial⟩ rfl rfl]
    rw [planeGrid_eq redMaterial (planeHitAt ⟨0, 0, 2⟩).point]
    · simp [planeHitAt, h0, h2]
    · simp [planeHitAt, h0]
    · simp [planeHitAt, h0]
    · simp [planeHitAt, h2]
  refine ⟨by simp [planeHitAt, h0], by simp [planeHitAt, h0], hc, ?_⟩
  rw [hc]
  norm_num [redMaterial]

/-- C9, amended: for every Plane hit at world point `(x, y, z)` whose halved
coordinates truncate into the range of `int`, `CalculateLighting` returns the
diffuse colour of the material when the cell indices of `x / 2`, `y / 2` and
`z / 2` (truncated toward zero) are all three even, and the fixed grid-line
colour `(0.1, 0.1, 0.1)` otherwise, whatever the flags and the lights. -/
theorem C9_plane_checker_three_axes (M : Maths) (f : Nat) (lights : List Light)
    (campos : Vector3) (hit : RayHitResult) (prim : Primitive)
    (hd : hit.data = some prim) (hp : prim.m_primtype = PrimType.Plane)
    (hx : -2147483648 ≤ cellIndex hit.point.x ∧ cellIndex hit.point.x ≤ 2147483647)
    (hy : -2147483648 ≤ cellIndex hit.point.y ∧ cellIndex hit.point.y ≤ 2147483647)
    (hz : -2147483648 ≤ cellIndex hit.point.z ∧ cellIndex hit.point.z ≤ 2147483647) :
    CalculateLighting M f lights campos hit
      = some (if cellIndex hit.point.x % 2 = 0 ∧ cellIndex hit.point.y % 2 = 0
            ∧ cellIndex hit.point.z % 2 = 0
          then prim.material.diffuse else ⟨1/10, 1/10, 1/10⟩) := by
  rw [CalculateLighting_plane M f lights campos hit prim hd hp]
  exact planeGrid_eq prim.material hit.point hx hy hz

theorem cellIndex_four : cellIndex 4 = 2 := by norm_num [cellIndex]

theorem cellIndex_zero : cellIndex 0 = 0 := by norm_num [cellIndex]

theorem cellIndex_neg_eight : cellIndex (-8) = -4 := by
  norm_num [cellIndex]

/-- C9, amended, at a concrete input: the Plane hit `(4, 0, -8)` has the even
cell indices 2, 0 and -4. -/
theorem C9_plane_checker_three_axes_witness :
    (planeHitAt ⟨4, 0, -8⟩).data = some ⟨PrimType.Plane, redMaterial⟩
      ∧ (-2147483648 ≤ cellIndex (planeHitAt ⟨4, 0, -8⟩).point.x
          ∧ cellIndex (planeHitAt ⟨4, 0, -8⟩).point.x ≤ 2147483647)
      ∧ (-2147483648 ≤ cellIndex (planeHitAt ⟨4, 0, -8⟩).point.y
          ∧ cellIndex (planeHitAt ⟨4, 0, -8⟩).point.y ≤ 2147483647)
      ∧ (-2147483648 ≤ cellIndex (planeHitAt ⟨4, 0, -8⟩).point.z
          ∧ cellIndex (planeHitAt ⟨4, 0, -8⟩).point.z ≤ 2147483647)
      ∧ CalculateLighting mathsQ allFlags [frontLight] cameraZ.position (planeHitAt ⟨4, 0, -8⟩)
          = some (if cellIndex (planeHitAt ⟨4, 0, -8⟩).point.x % 2 = 0
                ∧ cellIndex (planeHitAt ⟨4, 0, -8⟩).point.y % 2 = 0
                ∧ cellIndex (planeHitAt ⟨4, 0, -8⟩).point.z % 2 = 0
              then redMaterial.diffuse else ⟨1/10, 1/10, 1/10⟩) :=
  ⟨rfl, by simp [planeHitAt, cellIndex_four], by simp [planeHitAt, cellIndex_zero],
    by simp [planeHitAt, cellIndex_neg_eight],
    C9_plane_checker_three_axes mathsQ allFlags [frontLight] cameraZ.position
      (planeHitAt ⟨4, 0, -8⟩) ⟨PrimType.Plane, redMaterial⟩ rfl rfl
      (by simp [planeHitAt, cellIndex_four]) (by simp [planeHitAt, cellIndex_zero])
      (by simp [planeHitAt, cellIndex_neg_eight])⟩

/-! ## The diffuse term -/

theorem lightVector_back : lightVector mathsQ backLight sphereFrontHit = ⟨0, 4/5, 3/5⟩ := by
  have h : sqrtQ 100 = 10 := by
    have hs : Nat.sqrt 100 = 10 := Nat.sqrt_eq' 10
    simp [sqrtQ, hs]
  simp only [lightVector, mathsQ, backLight, sphereFrontHit, Vector3.sub_def,
    Vector3.divide_def, Vector3.DotProduct]
  norm_num [h]

/-- C10 (the code at a failing input): a light behind the surface. At the front
point of the sphere, with normal `(0, 0, -1)`, the normalised vector to the
light is `(0, 4/5, 3/5)` and its dot product with the normal is `-3/5`. The
claim's diffuse term is zero; the code's `diffReflection` is `(-3/5, 0, 0)`, and
`CalculateLighting` returns that negative colour for the matte material. -/
theorem C10_light_behind_negative_diffuse :
    (lightVector mathsQ backLight sphereFrontHit).DotProduct sphereFrontHit.normal = -3/5
      ∧ matteRed.diffuse * backLight.colour
          * max 0 ((lightVector mathsQ backLight sphereFrontHit).DotProduct sphereFrontHit.normal)
          = ⟨0, 0, 0⟩
      ∧ diffReflection mathsQ matteRed backLight sphereFrontHit = ⟨-3/5, 0, 0⟩
      ∧ CalculateLighting mathsQ (TRACE_AMBIENT ||| TRACE_DIFFUSE_AND_SPEC) [backLight]
          cameraZ.position sphereFrontHit = some ⟨-3/5, 0, 0⟩ := by
  have hdot : (lightVector mathsQ backLight sphereFrontHit).DotProduct sphereFrontHit.normal
      = -3/5 := by
    rw [lightVector_back]
    norm_num [Vector3.DotProduct, sphereFrontHit]
  have hdiff : diffReflection mathsQ matteRed backLight sphereFrontHit = ⟨-3/5, 0, 0⟩ := by
    simp only [diffReflection, hdot]
    norm_num [matteRed, backLight, Vector3.mul_def, Vector3.scale_def]
  have hspec : specular mathsQ matteRed backLight cameraZ.position sphereFrontHit
      = ⟨0, 0, 0⟩ := by
    simp [specular, matteRed, backLight, Vector3.mul_def, Vector3.scale_def]
  refine ⟨hdot, ?_, hdiff, ?_⟩
  · rw [hdot]
    norm_num [matteRed, backLight, Vector3.mul_def, Vector3.scale_def]
  · have hf : hasFlag (TRACE_AMBIENT ||| TRACE_DIFFUSE_AND_SPEC) TRACE_DIFFUSE_AND_SPEC
        = true := by decide
    have hc : CalculateLighting mathsQ (TRACE_AMBIENT ||| TRACE_DIFFUSE_AND_SPEC) [backLight]
        cameraZ.position sphereFrontHit
        = some (matteRed.ambient
            + specular mathsQ matteRed backLight cameraZ.position sphereFrontHit
            + diffReflection mathsQ matteRed backLight sphereFrontHit) := by
      simp [CalculateLighting, sphereFrontHit, hf]
    rw [hc, hspec, hdiff]
    norm_num [matteRed, Vector3.add_def]

/-! ## The specular term -/

theorem clamp01_eq (x : ℚ) : max (min x 1) 0 = clamp01 x := by
  unfold clamp01
  by_cases h0 : x < 0
  · rw [if_pos h0, min_eq_left (by linarith), max_eq_right (by linarith)]
  · rw [if_neg h0]
    by_cases h1 : 1 < x
    · rw [if_pos h1, min_eq_right (by linarith), max_eq_left (by norm_num)]
    · rw [if_neg h1, min_eq_left (by linarith), max_eq_left (by linarith)]

theorem CalculateLighting_lit (M : Maths) (f : Nat) (light : Light) (rest : List Light)
    (campos : Vector3) (hit : RayHitResult) (prim : Primitive)
    (hd : hit.data = some prim) (hp : prim.m_primtype ≠ PrimType.Plane)
    (hf : hasFlag f TRACE_DIFFUSE_AND_SPEC = true) :
    CalculateLighting M f (light :: rest) campos hit
      = some (prim.material.ambient + specular M prim.material light campos hit
          + diffReflection M prim.material light hit) := by
  unfold CalculateLighting
  rw [hd]
  simp [hp, hf]

/-- C11: for every non-Plane hit with DIFFUSE_AND_SPEC enabled and a non-zero sum
of light vector and view vector, the specular term `CalculateLighting` adds is
`materialSpecular * lightColour * clamp (dot (halfVector, normal), 0, 1) ^
specularPower`, with `halfVector` the normalised sum of the normalised
hit-to-light vector and the normalised hit-to-camera vector. The code divides
the sum by its norm, which is its normalisation (hypothesis `hN` on the vector
class). -/
theorem C11_specular_is_blinn_phong (M : Maths) (f : Nat) (light : Light) (rest : List Light)
    (campos : Vector3) (hit : RayHitResult) (prim : Primitive)
    (hd : hit.data = some prim) (hp : prim.m_primtype ≠ PrimType.Plane)
    (hf : hasFlag f TRACE_DIFFUSE_AND_SPEC = true)
    (hN : ∀ v : Vector3, v ≠ ⟨0, 0, 0⟩ → M.Normalise v = v / M.Norm v)
    (hsum : M.Normalise (light.position - hit.point) + M.Normalise (campos - hit.point)
      ≠ ⟨0, 0, 0⟩) :
    specular M prim.material light campos hit
        = prim.material.specular * light.colour
          * M.pow (clamp01 ((M.Normalise (M.Normalise (light.position - hit.point)
              + M.Normalise (campos - hit.point))).DotProduct hit.normal))
            prim.material.specPower
      ∧ CalculateLighting M f (light :: rest) campos hit
        = some (prim.material.ambient + specular M prim.material light campos hit
            + diffReflection M prim.material light hit) := by
  refine ⟨?_, CalculateLighting_lit M f light rest campos hit prim hd hp hf⟩
  rw [hN _ hsum, ← clamp01_eq]
  rfl

theorem sqrtQ_625 : sqrtQ 625 = 25 := by
  have hs : Nat.sqrt 625 = 25 := Nat.sqrt_eq' 25
  simp [sqrtQ, hs]

theorem sqrtQ_16 : sqrtQ 16 = 4 := by
  have hs : Nat.sqrt 16 = 4 := Nat.sqrt_eq' 4
  simp [sqrtQ, hs]

theorem sqrtQ_64_25 : sqrtQ (64/25) = 8/5 := by
  have hn : ((64 : ℚ) / 25).num = 64 := by norm_num
  have hd : ((64 : ℚ) / 25).den = 25 := by norm_num
  have hs : Nat.sqrt (Int.toNat 64 * 25) = 40 := Nat.sqrt_eq' 40
  rw [sqrtQ, hn, hd, hs]
  norm_num

theorem lightDirection_high :
    mathsQ.Normalise (highLight.position - shinyFrontHit.point) = ⟨0, 24/25, -7/25⟩ := by
  simp only [mathsQ, highLight, shinyFrontHit, Vector3.sub_def, Vector3.divide_def,
    Vector3.DotProduct]
  norm_num [sqrtQ_625]

theorem viewDirection_shiny :
    mathsQ.Normalise (cameraZ.position - shinyFrontHit.point) = ⟨0, 0, -1⟩ := by
  simp only [mathsQ, cameraZ, shinyFrontHit, Vector3.sub_def, Vector3.divide_def,
    Vector3.DotProduct]
  norm_num [sqrtQ_16]

theorem lightPlusView_shiny :
    mathsQ.Normalise (highLight.position - shinyFrontHit.point)
      + mathsQ.Normalise (cameraZ.position - shinyFrontHit.point) = ⟨0, 24/25, -32/25⟩ := by
  rw [lightDirection_high, viewDirection_shiny]
  norm_num [Vector3.add_def]

theorem halfVector_shiny :
    mathsQ.Normalise (mathsQ.Normalise (highLight.position - shinyFrontHit.point)
      + mathsQ.Normalise (cameraZ.position - shinyFrontHit.point)) = ⟨0, 3/5, -4/5⟩ := by
  rw [lightPlusView_shiny]
  have h : Vector3.DotProduct ⟨0, 24/25, -32/25⟩ ⟨0, 24/25, -32/25⟩ = 64/25 := by
    norm_num [Vector3.DotProduct]
  simp only [mathsQ, h, sqrtQ_64_25, Vector3.divide_def]
  norm_num

theorem blinnPhong_shiny :
    shinyMaterial.specular * highLight.colour
      * mathsQ.pow (clamp01 ((mathsQ.Normalise
          (mathsQ.Normalise (highLight.position - shinyFrontHit.point)
            + mathsQ.Normalise (cameraZ.position - shinyFrontHit.point))).DotProduct
          shinyFrontHit.normal))
        shinyMaterial.specPower = ⟨16/25, 8/25, 0⟩ := by
  rw [halfVector_shiny]
  have hdot : Vector3.DotProduct ⟨0, 3/5, -4/5⟩ shinyFrontHit.normal = 4/5 := by
    norm_num [Vector3.DotProduct, shinyFrontHit]
  have hclamp : clamp01 (4/5) = 4/5 := by norm_num [clamp01]
  have hpow : mathsQ.pow (4/5) shinyMaterial.specPower = 16/25 := by
    show ((4 : ℚ)/5) ^ 2 = 16/25
    norm_num
  rw [hdot, hclamp, hpow]
  norm_num [shinyMaterial, highLight, Vector3.mul_def, Vector3.scale_def]

/-- C11 at a concrete input with a specular highlight: the front point of a
sphere with specular colour `(1, 1/2, 0)` and power 2, the light `highLight` and
the camera `cameraZ`. The light vector is `(0, 24/25, -7/25)`, the view vector
`(0, 0, -1)`, their sum `(0, 24/25, -32/25)` has norm 8/5, the half vector is
`(0, 3/5, -4/5)`, its dot product with the normal `(0, 0, -1)` is 4/5, and the
specular term is `(1, 1/2, 0) * (4/5) ^ 2 = (16/25, 8/25, 0)`. -/
theorem C11_specular_is_blinn_phong_witness :
    hasFlag allFlags TRACE_DIFFUSE_AND_SPEC = true
      ∧ mathsQ.Normalise (highLight.position - shinyFrontHit.point)
          + mathsQ.Normalise (cameraZ.position - shinyFrontHit.point) ≠ ⟨0, 0, 0⟩
      ∧ specular mathsQ shinyMaterial highLight cameraZ.position shinyFrontHit
          = shinyMaterial.specular * highLight.colour
            * mathsQ.pow (clamp01 ((mathsQ.Normalise
                (mathsQ.Normalise (highLight.position - shinyFrontHit.point)
                  + mathsQ.Normalise (cameraZ.position - shinyFrontHit.point))).DotProduct
                shinyFrontHit.normal))
              shinyMaterial.specPower
      ∧ specular mathsQ shinyMaterial highLight cameraZ.position shinyFrontHit
          = ⟨16/25, 8/25, 0⟩ :=
  ⟨by decide,
    by rw [lightPlusView_shiny]; norm_num,
    (C11_specular_is_blinn_phong mathsQ allFlags highLight [] cameraZ.position shinyFrontHit
      ⟨PrimType.Sphere, shinyMaterial⟩ rfl (by decide) (by decide) (fun _ _ => rfl)
      (by rw [lightPlusView_shiny]; norm_num)).1,
    ((C11_specular_is_blinn_phong mathsQ allFlags highLight [] cameraZ.position shinyFrontHit
      ⟨PrimType.Sphere, shinyMaterial⟩ rfl (by decide) (by decide) (fun _ _ => rfl)
      (by rw [lightPlusView_shiny]; norm_num)).1).trans blinnPhong_shiny⟩

/-! ## Local shading only -/

theorem Vector3.mul_swap (a b : Vector3) : a * b = b * a := by
  simp [Vector3.mul_def, mul_comm]

theorem TraceScene_no_secondary (M : Maths) (f : Nat) (scene : Scene) (ray : Ray) (c : Colour)
    (tl : Int) (s : Bool) (prim : Primitive) (h : 0 < tl)
    (hd : (scene.IntersectByRay ray).data = some prim)
    (hR : hasFlag f TRACE_REFLECTION = false) (hF : hasFlag f TRACE_REFRACTION = false)
    (hS : hasFlag f TRACE_SHADOW = false) :
    TraceScene M f scene ray c tl s
      = ⟨CalculateLighting M f scene.lights scene.camera.position (scene.IntersectByRay ray),
          [Event.query ray]⟩ := by
  rw [TraceScene_hit M f scene ray c tl s prim h hd]
  simp [hR, hF, hS, shadowPass]

theorem Vector3.zero_add_zero_mul (a b : Vector3) (q : ℚ) :
    (⟨0, 0, 0⟩ : Vector3) + (⟨0, 0, 0⟩ : Vector3) * a * q + b = b := by
  simp [Vector3.add_def, Vector3.mul_def, Vector3.scale_def]

/-- C12: when the configuration is exactly AMBIENT | DIFFUSE_AND_SPEC, for every
trace level >= 1 and every ray that hits a primitive, `TraceScene` returns
exactly `CalculateLighting (lights, cameraPosition, hit)` and makes no recursive
call; for a Sphere with black ambient and specular `(0, 0, 0)` under a first
light this is the diffuse term alone. -/
theorem C12_local_shading_only (M : Maths) (scene : Scene) (ray : Ray) (c : Colour)
    (tl : Int) (s : Bool) (prim : Primitive) (h : 1 ≤ tl)
    (hd : (scene.IntersectByRay ray).data = some prim) :
    (TraceScene M (TRACE_AMBIENT ||| TRACE_DIFFUSE_AND_SPEC) scene ray c tl s).colour
        = CalculateLighting M (TRACE_AMBIENT ||| TRACE_DIFFUSE_AND_SPEC) scene.lights
            scene.camera.position (scene.IntersectByRay ray)
      ∧ (TraceScene M (TRACE_AMBIENT ||| TRACE_DIFFUSE_AND_SPEC) scene ray c tl s).log
        = [Event.query ray]
      ∧ (∀ (light : Light) (rest : List Light),
          prim.m_primtype = PrimType.Sphere → prim.material.ambient = ⟨0, 0, 0⟩ →
          prim.material.specular = ⟨0, 0, 0⟩ → scene.lights = light :: rest →
          (TraceScene M (TRACE_AMBIENT ||| TRACE_DIFFUSE_AND_SPEC) scene ray c tl s).colour
            = some (diffReflection M prim.material light (scene.IntersectByRay ray))) := by
  have ht := TraceScene_no_secondary M (TRACE_AMBIENT ||| TRACE_DIFFUSE_AND_SPEC) scene ray c
    tl s prim (by omega) hd (by decide) (by decide) (by decide)
  rw [ht]
  refine ⟨rfl, rfl, ?_⟩
  intro light rest hs ha hsp hl
  show CalculateLighting M (TRACE_AMBIENT ||| TRACE_DIFFUSE_AND_SPEC) scene.lights
    scene.camera.position (scene.IntersectByRay ray) = _
  rw [hl, CalculateLighting_lit M _ light rest _ _ prim hd (by rw [hs]; decide) (by decide)]
  unfold specular
  simp only [ha, hsp]
  rw [Vector3.zero_add_zero_mul]

/-- C12 at a concrete input: the primary ray on the matte red sphere of
`shadowedSphereScene`, trace level 1. -/
theorem C12_local_shading_only_witness :
    (1 : Int) ≤ 1
      ∧ (shadowedSphereScene.IntersectByRay primaryRay).data
          = some ⟨PrimType.Sphere, matteRed⟩
      ∧ (TraceScene mathsQ (TRACE_AMBIENT ||| TRACE_DIFFUSE_AND_SPEC) shadowedSphereScene
          primaryRay shadowedSphereScene.background 1 false).colour
        = CalculateLighting mathsQ (TRACE_AMBIENT ||| TRACE_DIFFUSE_AND_SPEC)
            shadowedSphereScene.lights shadowedSphereScene.camera.position
            (shadowedSphereScene.IntersectByRay primaryRay) :=
  ⟨by decide, by simp [shadowedSphereScene, primaryRay, sphereFrontHit],
    (C12_local_shading_only mathsQ shadowedSphereScene primaryRay
      shadowedSphereScene.background 1 false ⟨PrimType.Sphere, matteRed⟩ (by decide)
      (by simp [shadowedSphereScene, primaryRay, sphereFrontHit])).1⟩

/-! ## One shadowed light -/

theorem CalculateLighting_flag_congr (M : Maths) (f1 f2 : Nat) (lights : List Light)
    (campos : Vector3) (hit : RayHitResult)
    (h : hasFlag f1 TRACE_DIFFUSE_AND_SPEC = hasFlag f2 TRACE_DIFFUSE_AND_SPEC) :
    CalculateLighting M f1 lights campos hit = CalculateLighting M f2 lights campos hit := by
  unfold CalculateLighting
  rw [h]

/-- C13: with configuration AMBIENT | DIFFUSE_AND_SPEC | SHADOW, one light, and a
ray hitting a Sphere whose shadow ray toward the light hits a Box with
`castsShadow == true` lying between the hit point and the light, `TraceScene` at
trace level 1 returns a colour, and it is exactly 0.5 times the colour it
returns for the same hit with SHADOW disabled. -/
theorem C13_shadowed_is_half_unshadowed (M : Maths) (scene : Scene) (ray : Ray) (c : Colour)
    (s : Bool) (prim occluder : Primitive) (light : Light)
    (hl : scene.lights = [light])
    (hd : (scene.IntersectByRay ray).data = some prim)
    (hp : prim.m_primtype = PrimType.Sphere)
    (ho : (scene.IntersectByRay (shadowTest light (scene.IntersectByRay ray))).data
      = some occluder)
    (_hbox : occluder.m_primtype = PrimType.Box)
    (hc : occluder.material.castShadow = true)
    (_hbetween : distSq (scene.IntersectByRay (shadowTest light (scene.IntersectByRay ray))).point
        (scene.IntersectByRay ray).point
      < distSq light.position (scene.IntersectByRay ray).point) :
    ∃ col : Colour,
      (TraceScene M (TRACE_AMBIENT ||| TRACE_DIFFUSE_AND_SPEC) scene ray c 1 s).colour
          = some col
        ∧ (TraceScene M (TRACE_AMBIENT ||| TRACE_DIFFUSE_AND_SPEC ||| TRACE_SHADOW) scene ray c
            1 s).colour = some (col * (1/2 : ℚ)) := by
  have hne : prim.m_primtype ≠ PrimType.Plane := by rw [hp]; decide
  have hcl : CalculateLighting M (TRACE_AMBIENT ||| TRACE_DIFFUSE_AND_SPEC) scene.lights
      scene.camera.position (scene.IntersectByRay ray)
      = some (prim.material.ambient
          + specular M prim.material light scene.camera.position (scene.IntersectByRay ray)
          + diffReflection M prim.material light (scene.IntersectByRay ray)) := by
    rw [hl]
    exact CalculateLighting_lit M _ light [] _ _ prim hd hne (by decide)
  have hcl2 : CalculateLighting M (TRACE_AMBIENT ||| TRACE_DIFFUSE_AND_SPEC ||| TRACE_SHADOW)
      scene.lights scene.camera.position (scene.IntersectByRay ray)
      = CalculateLighting M (TRACE_AMBIENT ||| TRACE_DIFFUSE_AND_SPEC) scene.lights
          scene.camera.position (scene.IntersectByRay ray) :=
    CalculateLighting_flag_congr M _ _ _ _ _ (by decide)
  refine ⟨prim.material.ambient
      + specular M prim.material light scene.camera.position (scene.IntersectByRay ray)
      + diffReflection M prim.material light (scene.IntersectByRay ray), ?_, ?_⟩
  · rw [TraceScene_no_secondary M _ scene ray c 1 s prim (by decide) hd (by decide)
      (by decide) (by decide)]
    exact hcl
  · rw [TraceScene_hit M _ scene ray c 1 s prim (by decide) hd]
    have h1 : hasFlag (TRACE_AMBIENT ||| TRACE_DIFFUSE_AND_SPEC ||| TRACE_SHADOW)
        TRACE_REFLECTION = false := by decide
    have h2 : hasFlag (TRACE_AMBIENT ||| TRACE_DIFFUSE_AND_SPEC ||| TRACE_SHADOW)
        TRACE_REFRACTION = false := by decide
    have h3 : hasFlag (TRACE_AMBIENT ||| TRACE_DIFFUSE_AND_SPEC ||| TRACE_SHADOW)
        TRACE_SHADOW = true := by decide
    simp only [hcl2, hcl]
    simp only [h1, h2, h3, Bool.false_and, shadowPass, if_true, hl, List.foldl_cons,
      List.foldl_nil, shadowStep, ho, hc, Bool.false_eq_true, if_false, Option.map_some']

theorem shadowed_primary_hit :
    shadowedSphereScene.IntersectByRay primaryRay = sphereFrontHit := by
  simp [shadowedSphereScene, primaryRay]

theorem shadowed_shadow_hit :
    shadowedSphereScene.IntersectByRay
      (shadowTest sideLight (shadowedSphereScene.IntersectByRay primaryRay)) = boxHit := by
  rw [shadowed_primary_hit]
  have h : shadowTest sideLight sphereFrontHit
      = ⟨⟨0, 3/10000, -10004/10000⟩, ⟨0, 3, -4⟩⟩ := by
    simp [shadowTest, sideLight, sphereFrontHit, Vector3.sub_def, Vector3.add_def,
      Vector3.scale_def]
    norm_num
  rw [h]
  norm_num [shadowedSphereScene]

/-- C13 at a concrete input: the sphere of `shadowedSphereScene`, whose shadow
ray toward the light at distance 5 hits the shadow-casting box at distance 5/2. -/
theorem C13_shadowed_is_half_unshadowed_witness :
    (shadowedSphereScene.IntersectByRay primaryRay).data = some ⟨PrimType.Sphere, matteRed⟩
      ∧ (shadowedSphereScene.IntersectByRay
          (shadowTest sideLight (shadowedSphereScene.IntersectByRay primaryRay))).data
          = some ⟨PrimType.Box, blueMaterial⟩
      ∧ ∃ col : Colour,
          (TraceScene mathsQ (TRACE_AMBIENT ||| TRACE_DIFFUSE_AND_SPEC) shadowedSphereScene
              primaryRay shadowedSphereScene.background 1 false).colour = some col
            ∧ (TraceScene mathsQ (TRACE_AMBIENT ||| TRACE_DIFFUSE_AND_SPEC ||| TRACE_SHADOW)
                shadowedSphereScene primaryRay shadowedSphereScene.background 1 false).colour
              = some (col * (1/2 : ℚ)) :=
  ⟨by simp [shadowed_primary_hit, sphereFrontHit],
    by simp [shadowed_shadow_hit, boxHit],
    C13_shadowed_is_half_unshadowed mathsQ shadowedSphereScene primaryRay
      shadowedSphereScene.background false ⟨PrimType.Sphere, matteRed⟩
      ⟨PrimType.Box, blueMaterial⟩ sideLight rfl
      (by simp [shadowed_primary_hit, sphereFrontHit]) rfl
      (by simp [shadowed_shadow_hit, boxHit]) rfl rfl
      (by
        rw [shadowed_shadow_hit, shadowed_primary_hit]
        norm_num [distSq, boxHit, sphereFrontHit, sideLight, Vector3.sub_def,
          Vector3.DotProduct])⟩

/-! ## Reflection alone, refraction alone -/

theorem sphereOrBox_of_type (prim : Primitive)
    (hp : prim.m_primtype = PrimType.Sphere ∨ prim.m_primtype = PrimType.Box) :
    sphereOrBox prim = true := by
  rcases hp with hp | hp <;> simp [sphereOrBox, hp]

/-- C14: with REFLECTION enabled and REFRACTION and SHADOW disabled, for every
trace level `d >= 1` and every ray hitting a Sphere or Box, `TraceScene` returns
the component-wise product `localColour * TraceScene (reflectedRay,
incomingColour, d - 1)`, where `localColour` is `CalculateLighting` of the hit
and `reflectedRay` has the direction `Reflect (ray direction, hit normal)` and
the origin `hit point + that direction`. -/
theorem C14_reflection_multiplies (M : Maths) (f : Nat) (scene : Scene) (ray : Ray)
    (c : Colour) (d : Int) (s : Bool) (prim : Primitive)
    (hR : hasFlag f TRACE_REFLECTION = true) (hF : hasFlag f TRACE_REFRACTION = false)
    (hS : hasFlag f TRACE_SHADOW = false) (h : 1 ≤ d)
    (hd : (scene.IntersectByRay ray).data = some prim)
    (hp : prim.m_primtype = PrimType.Sphere ∨ prim.m_primtype = PrimType.Box) :
    (TraceScene M f scene ray c d s).colour
      = (do
          let localColour ← CalculateLighting M f scene.lights scene.camera.position
            (scene.IntersectByRay ray)
          let reflected ← (TraceScene M f scene
            ⟨(scene.IntersectByRay ray).point
                + M.Reflect ray.direction (scene.IntersectByRay ray).normal,
              M.Reflect ray.direction (scene.IntersectByRay ray).normal⟩ c (d - 1) s).colour
          pure (localColour * reflected)) := by
  rw [TraceScene_hit M f scene ray c d s prim (by omega) hd]
  have hsb := sphereOrBox_of_type prim hp
  simp only [hR, hF, hS, hsb, Bool.and_true, Bool.false_and, Bool.false_eq_true, if_true,
    if_false, shadowPass, reflectiveRay]
  cases CalculateLighting M f scene.lights scene.camera.position (scene.IntersectByRay ray)
    <;> cases (TraceScene M f scene
      ⟨(scene.IntersectByRay ray).point
          + M.Reflect ray.direction (scene.IntersectByRay ray).normal,
        M.Reflect ray.direction (scene.IntersectByRay ray).normal⟩ c (d - 1) s).colour
    <;> simp [Vector3.mul_swap]

/-- C14 at a concrete input: inside the red sphere with REFLECTION alone, trace
level 2. -/
theorem C14_reflection_multiplies_witness :
    hasFlag TRACE_REFLECTION TRACE_REFLECTION = true
      ∧ (insideSphereScene.IntersectByRay primaryRay).data
          = some ⟨PrimType.Sphere, redMaterial⟩
      ∧ (TraceScene mathsQ TRACE_REFLECTION insideSphereScene primaryRay
          insideSphereScene.background 2 false).colour
        = (do
            let localColour ← CalculateLighting mathsQ TRACE_REFLECTION insideSphereScene.lights
              insideSphereScene.camera.position (insideSphereScene.IntersectByRay primaryRay)
            let reflected ← (TraceScene mathsQ TRACE_REFLECTION insideSphereScene
              ⟨(insideSphereScene.IntersectByRay primaryRay).point
                  + mathsQ.Reflect primaryRay.direction
                      (insideSphereScene.IntersectByRay primaryRay).normal,
                mathsQ.Reflect primaryRay.direction
                  (insideSphereScene.IntersectByRay primaryRay).normal⟩
              insideSphereScene.background (2 - 1) false).colour
            pure (localColour * reflected)) :=
  ⟨by decide, rfl,
    C14_reflection_multiplies mathsQ TRACE_REFLECTION insideSphereScene primaryRay
      insideSphereScene.background 2 false ⟨PrimType.Sphere, redMaterial⟩ (by decide)
      (by decide) (by decide) (by decide) rfl (Or.inl rfl)⟩

/-- C15: with REFRACTION enabled and REFLECTION and SHADOW disabled, for every
trace level `d >= 1` and every ray hitting a Sphere or Box, `TraceScene` returns
`localColour * 0.2 + TraceScene (refractedRay, incomingColour, d - 1) * 0.8`,
where `localColour` is `CalculateLighting` of the hit and `refractedRay` has the
direction `Refract (ray direction, hit normal, 0.9)` and the origin
`hit point + 0.01 * that direction`. -/
theorem C15_refraction_blends (M : Maths) (f : Nat) (scene : Scene) (ray : Ray)
    (c : Colour) (d : Int) (s : Bool) (prim : Primitive)
    (hF : hasFlag f TRACE_REFRACTION = true) (hR : hasFlag f TRACE_REFLECTION = false)
    (hS : hasFlag f TRACE_SHADOW = false) (h : 1 ≤ d)
    (hd : (scene.IntersectByRay ray).data = some prim)
    (hp : prim.m_primtype = PrimType.Sphere ∨ prim.m_primtype = PrimType.Box) :
    (TraceScene M f scene ray c d s).colour
      = (do
          let localColour ← CalculateLighting M f scene.lights scene.camera.position
            (scene.IntersectByRay ray)
          let refracted ← (TraceScene M f scene
            ⟨(scene.IntersectByRay ray).point
                + M.Refract ray.direction (scene.IntersectByRay ray).normal (9/10)
                  * (1/100 : ℚ),
              M.Refract ray.direction (scene.IntersectByRay ray).normal (9/10)⟩
            c (d - 1) s).colour
          pure (localColour * (2/10 : ℚ) + refracted * (8/10 : ℚ))) := by
  rw [TraceScene_hit M f scene ray c d s prim (by omega) hd]
  have hsb := sphereOrBox_of_type prim hp
  simp only [hR, hF, hS, hsb, Bool.and_true, Bool.false_and, Bool.false_eq_true, if_true,
    if_false, shadowPass, refractionRay]

/-- C15 at a concrete input: inside the red sphere with REFRACTION alone, trace
level 2. -/
theorem C15_refraction_blends_witness :
    hasFlag TRACE_REFRACTION TRACE_REFRACTION = true
      ∧ (insideSphereScene.IntersectByRay primaryRay).data
          = some ⟨PrimType.Sphere, redMaterial⟩
      ∧ (TraceScene mathsQ TRACE_REFRACTION insideSphereScene primaryRay
          insideSphereScene.background 2 false).colour
        = (do
            let localColour ← CalculateLighting mathsQ TRACE_REFRACTION insideSphereScene.lights
              insideSphereScene.camera.position (insideSphereScene.IntersectByRay primaryRay)
            let refracted ← (TraceScene mathsQ TRACE_REFRACTION insideSphereScene
              ⟨(insideSphereScene.IntersectByRay primaryRay).point
                  + mathsQ.Refract primaryRay.direction
                      (insideSphereScene.IntersectByRay primaryRay).normal (9/10)
                    * (1/100 : ℚ),
                mathsQ.Refract primaryRay.direction
                  (insideSphereScene.IntersectByRay primaryRay).normal (9/10)⟩
              insideSphereScene.background (2 - 1) false).colour
            pure (localColour * (2/10 : ℚ) + refracted * (8/10 : ℚ))) :=
  ⟨by decide, rfl,
    C15_refraction_blends mathsQ TRACE_REFRACTION insideSphereScene primaryRay
      insideSphereScene.background 2 false ⟨PrimType.Sphere, redMaterial⟩ (by decide)
      (by decide) (by decide) (by decide) rfl (Or.inl rfl)⟩

/-! ## Rendering once -/

theorem DoRayTrace_rendered (M : Maths) (rt : RayTracer) (scene : Scene)
    (h : rt.m_renderCount ≠ 0) : DoRayTrace M rt scene = rt := by
  unfold DoRayTrace
  rw [if_neg h]

theorem DoRayTrace_rendered_fold (M : Maths) (rt : RayTracer) (scenes : List Scene)
    (h : rt.m_renderCount ≠ 0) : scenes.foldl (DoRayTrace M) rt = rt := by
  induction scenes with
  | nil => rfl
  | cons scene rest ih => rw [List.foldl_cons, DoRayTrace_rendered M rt scene h, ih]

/-- C16: `DoRayTrace` executes at most once per renderer instance. On a fresh
instance (render count 0) the first call ends with render count 1; after it,
every later call, with any scene, and every sequence of later calls, leaves the
instance (framebuffer contents and render count) unchanged. -/
theorem C16_render_at_most_once (M : Maths) (rt : RayTracer) (first : Scene)
    (h : rt.m_renderCount = 0) :
    (DoRayTrace M rt first).m_renderCount = 1
      ∧ (∀ later : Scene,
          (DoRayTrace M (DoRayTrace M rt first) later).m_framebuffer
              = (DoRayTrace M rt first).m_framebuffer
            ∧ (DoRayTrace M (DoRayTrace M rt first) later).m_renderCount
              = (DoRayTrace M rt first).m_renderCount)
      ∧ (∀ laters : List Scene,
          laters.foldl (DoRayTrace M) (DoRayTrace M rt first) = DoRayTrace M rt first) := by
  have h1 : (DoRayTrace M rt first).m_renderCount = 1 := by
    unfold DoRayTrace
    rw [if_pos h]
    simp [h]
  have hne : (DoRayTrace M rt first).m_renderCount ≠ 0 := by rw [h1]; decide
  refine ⟨h1, ?_, ?_⟩
  · intro later
    rw [DoRayTrace_rendered M _ later hne]
    exact ⟨rfl, rfl⟩
  · intro laters
    exact DoRayTrace_rendered_fold M _ laters hne

/-- C16 at a concrete input: the one-pixel renderer renders the edge scene, then
is asked to render the empty scene and the sphere scene. -/
theorem C16_render_at_most_once_witness :
    onePixelTracer.m_renderCount = 0
      ∧ [emptyScene, insideSphereScene].foldl (DoRayTrace mathsQ)
          (DoRayTrace mathsQ onePixelTracer edgeScene)
        = DoRayTrace mathsQ onePixelTracer edgeScene :=
  ⟨rfl, (C16_render_at_most_once mathsQ onePixelTracer edgeScene rfl).2.2
    [emptyScene, insideSphereScene]⟩

/-! ## Degenerate secondary directions -/

theorem CalculateLighting_unlit (M : Maths) (f : Nat) (lights : List Light) (campos : Vector3)
    (hit : RayHitResult) (prim : Primitive) (hd : hit.data = some prim)
    (hp : prim.m_primtype ≠ PrimType.Plane)
    (hf : hasFlag f TRACE_DIFFUSE_AND_SPEC = false) :
    CalculateLighting M f lights campos hit = some prim.material.ambient := by
  unfold CalculateLighting
  rw [hd]
  simp [hp, hf]

/-- C18: for every non-Plane hit with DIFFUSE_AND_SPEC enabled and any two
non-empty light collections that have the same first light, `CalculateLighting`
returns the same colour, the one computed from the first light: ambient plus the
specular and diffuse terms of that light; later lights are ignored. -/
theorem C18_only_first_light_contributes (M : Maths) (f : Nat) (lights1 lights2 : List Light)
    (campos : Vector3) (hit : RayHitResult) (prim : Primitive) (first : Light)
    (hd : hit.data = some prim) (hp : prim.m_primtype ≠ PrimType.Plane)
    (hf : hasFlag f TRACE_DIFFUSE_AND_SPEC = true)
    (h1 : lights1.head? = some first) (h2 : lights2.head? = some first) :
    CalculateLighting M f lights1 campos hit = CalculateLighting M f lights2 campos hit
      ∧ CalculateLighting M f lights1 campos hit
        = some (prim.material.ambient + specular M prim.material first campos hit
            + diffReflection M prim.material first hit) := by
  cases lights1 with
  | nil => simp at h1
  | cons a rest1 =>
    cases lights2 with
    | nil => simp at h2
    | cons b rest2 =>
      simp only [List.head?_cons, Option.some.injEq] at h1 h2
      rw [h1, h2, CalculateLighting_lit M f first rest1 campos hit prim hd hp hf,
        CalculateLighting_lit M f first rest2 campos hit prim hd hp hf]
      exact ⟨rfl, rfl⟩

/-- C18 at a concrete input: the light `sideLight` alone, and `sideLight`
followed by `frontLight` and `backLight`. -/
theorem C18_only_first_light_contributes_witness :
    hasFlag allFlags TRACE_DIFFUSE_AND_SPEC = true
      ∧ CalculateLighting mathsQ allFlags [sideLight] cameraZ.position sphereFrontHit
        = CalculateLighting mathsQ allFlags [sideLight, frontLight, backLight]
            cameraZ.position sphereFrontHit :=
  ⟨by decide,
    (C18_only_first_light_contributes mathsQ allFlags [sideLight]
      [sideLight, frontLight, backLight] cameraZ.position sphereFrontHit
      ⟨PrimType.Sphere, matteRed⟩ sideLight rfl (by decide) (by decide) rfl rfl).1⟩

/-! ## Termination -/

theorem callLevels_decrease_aux (M : Maths) (f : Nat) (scene : Scene) (c : Colour) (s : Bool)
    (n : Nat) :
    ∀ (tl : Int) (ray : Ray), tl ≤ n →
      (∀ p ∈ callLevels (TraceScene M f scene ray c tl s).log,
          0 < p.1 ∧ p.2 < p.1 ∧ p.1 ≤ tl)
        ∧ (callLevels (TraceScene M f scene ray c tl s).log).length + 2 ≤ 2 ^ (n + 1) := by
  induction n with
  | zero =>
    intro tl ray htl
    rw [callLevels_TraceScene_nonpos M f scene ray c tl s (by simpa using htl)]
    simp
  | succ n ih =>
    intro tl ray htl
    have hpow : 2 ^ (n + 1 + 1) = 2 * 2 ^ (n + 1) := by rw [pow_succ, mul_comm]
    have hge : 2 ≤ 2 ^ (n + 1) := by
      calc 2 = 2 ^ 1 := rfl
        _ ≤ 2 ^ (n + 1) := Nat.pow_le_pow_right (by decide) (by omega)
    by_cases h0 : tl ≤ 0
    · rw [callLevels_TraceScene_nonpos M f scene ray c tl s h0]
      refine ⟨by simp, ?_⟩
      simp only [List.length_nil]
      omega
    · have hpos : 0 < tl := not_le.mp h0
      cases hd : (scene.IntersectByRay ray).data with
      | none =>
        rw [TraceScene_miss M f scene ray c tl s hpos hd]
        refine ⟨by simp [callLevels], ?_⟩
        simp only [callLevels, List.filterMap_cons, List.filterMap_nil, List.length_nil]
        omega
      | some prim =>
        rw [callLevels_TraceScene_hit M f scene ray c tl s prim hpos hd]
        have hle : tl - 1 ≤ (n : Int) := by push_cast at htl; omega
        have hle2 : tl - 1 - 1 ≤ (n : Int) := by omega
        have i1 := ih (tl - 1) (reflectiveRay M ray (scene.IntersectByRay ray)) hle
        have i2 := ih (tl - 1) (refractionRay M ray (scene.IntersectByRay ray)) hle
        have i3 := ih (tl - 1 - 1) (refractionRay M ray (scene.IntersectByRay ray)) hle2
        by_cases h1 : (hasFlag f TRACE_REFLECTION && sphereOrBox prim) = true
          <;> by_cases h2 : (hasFlag f TRACE_REFRACTION && sphereOrBox prim) = true
        · simp only [if_pos h1, if_pos h2]
          constructor
          · intro p hp
            simp only [List.mem_append, List.mem_cons] at hp
            rcases hp with (hp | hp) | hp | hp
            · subst hp; exact ⟨hpos, by simp, le_refl _⟩
            · have := i1.1 p hp; omega
            · subst hp; exact ⟨hpos, by simp; omega, le_refl _⟩
            · have := i3.1 p hp; omega
          · simp only [List.length_append, List.length_cons]
            have := i1.2
            have := i3.2
            omega
        · simp only [if_pos h1, if_neg h2, List.append_nil]
          constructor
          · intro p hp
            simp only [List.mem_cons] at hp
            rcases hp with hp | hp
            · subst hp; exact ⟨hpos, by simp, le_refl _⟩
            · have := i1.1 p hp; omega
          · simp only [List.length_cons]
            have := i1.2
            omega
        · simp only [if_neg h1, if_pos h2, List.nil_append]
          constructor
          · intro p hp
            simp only [List.mem_cons] at hp
            rcases hp with hp | hp
            · subst hp; exact ⟨hpos, by simp, le_refl _⟩
            · have := i2.1 p hp; omega
          · simp only [List.length_cons]
            have := i2.2
            omega
        · simp only [if_neg h1, if_neg h2, List.append_nil]
          refine ⟨by simp, ?_⟩
          simp only [List.length_nil]
          omega

/-- C19: `TraceScene` is a total function of every scene, ray, flag
configuration and integer trace level (its definition is accepted by
well-founded recursion on the trace level). Every recursive call, at every
nesting level, is made by an invocation of positive trace level and passes a
strictly smaller level; a call with trace level `<= 0` returns the incoming
colour with an empty log, so without recursing; and the number of recursive
invocations triggered by one call is below `2 ^ (level + 1)`. -/
theorem C19_TraceScene_terminates (M : Maths) (f : Nat) (scene : Scene) (ray : Ray)
    (c : Colour) (tl : Int) (s : Bool) :
    (∀ p ∈ callLevels (TraceScene M f scene ray c tl s).log,
        0 < p.1 ∧ p.2 < p.1 ∧ p.1 ≤ tl)
      ∧ (tl ≤ 0 → TraceScene M f scene ray c tl s = ⟨some c, []⟩)
      ∧ (callLevels (TraceScene M f scene ray c tl s).log).length + 2
          ≤ 2 ^ (tl.toNat + 1) := by
  have h := callLevels_decrease_aux M f scene c s tl.toNat tl ray (by omega)
  exact ⟨h.1, TraceScene_nonpos M f scene ray c tl s, h.2⟩

/-! ## The AMBIENT flag -/

theorem and_or_ambient (f X : Nat) (hX : X.testBit 0 = false) :
    (f ||| TRACE_AMBIENT) &&& X = f &&& X := by
  apply Nat.eq_of_testBit_eq
  intro i
  simp only [Nat.testBit_and, Nat.testBit_or, TRACE_AMBIENT]
  rcases i with _ | i
  · simp [hX]
  · simp [Nat.testBit_succ]

theorem hasFlag_or_ambient (f X : Nat) (hX : X.testBit 0 = false) :
    hasFlag (f ||| TRACE_AMBIENT) X = hasFlag f X := by
  unfold hasFlag
  rw [and_or_ambient f X hX]

theorem hasFlag_congr_ambient (f1 f2 X : Nat) (hX : X.testBit 0 = false)
    (h : f1 ||| TRACE_AMBIENT = f2 ||| TRACE_AMBIENT) : hasFlag f1 X = hasFlag f2 X := by
  rw [← hasFlag_or_ambient f1 X hX, h, hasFlag_or_ambient f2 X hX]

theorem shadowPass_flag_congr (f1 f2 : Nat) (scene : Scene) (result : RayHitResult)
    (acc : Traced) (h : hasFlag f1 TRACE_SHADOW = hasFlag f2 TRACE_SHADOW) :
    shadowPass f1 scene result acc = shadowPass f2 scene result acc := by
  unfold shadowPass
  rw [h]

theorem TraceScene_flag_congr_aux (M : Maths) (f1 f2 : Nat) (scene : Scene) (c : Colour)
    (s : Bool)
    (hD : hasFlag f1 TRACE_DIFFUSE_AND_SPEC = hasFlag f2 TRACE_DIFFUSE_AND_SPEC)
    (hS : hasFlag f1 TRACE_SHADOW = hasFlag f2 TRACE_SHADOW)
    (hR : hasFlag f1 TRACE_REFLECTION = hasFlag f2 TRACE_REFLECTION)
    (hF : hasFlag f1 TRACE_REFRACTION = hasFlag f2 TRACE_REFRACTION)
    (n : Nat) :
    ∀ (tl : Int) (ray : Ray), tl ≤ n →
      TraceScene M f1 scene ray c tl s = TraceScene M f2 scene ray c tl s := by
  induction n with
  | zero =>
    intro tl ray htl
    have h0 : tl ≤ 0 := by simpa using htl
    rw [TraceScene_nonpos M f1 scene ray c tl s h0, TraceScene_nonpos M f2 scene ray c tl s h0]
  | succ n ih =>
    intro tl ray htl
    by_cases h0 : tl ≤ 0
    · rw [TraceScene_nonpos M f1 scene ray c tl s h0,
        TraceScene_nonpos M f2 scene ray c tl s h0]
    · have hpos : 0 < tl := not_le.mp h0
      cases hd : (scene.IntersectByRay ray).data with
      | none =>
        rw [TraceScene_miss M f1 scene ray c tl s hpos hd,
          TraceScene_miss M f2 scene ray c tl s hpos hd]
      | some prim =>
        rw [TraceScene_hit M f1 scene ray c tl s prim hpos hd,
          TraceScene_hit M f2 scene ray c tl s prim hpos hd]
        have hle : tl - 1 ≤ (n : Int) := by push_cast at htl; omega
        have hle2 : tl - 1 - 1 ≤ (n : Int) := by omega
        have i1 := ih (tl - 1) (reflectiveRay M ray (scene.IntersectByRay ray)) hle
        have i2 := ih (tl - 1) (refractionRay M ray (scene.IntersectByRay ray)) hle
        have i3 := ih (tl - 1 - 1) (refractionRay M ray (scene.IntersectByRay ray)) hle2
        have hcl := CalculateLighting_flag_congr M f1 f2 scene.lights scene.camera.position
          (scene.IntersectByRay ray) hD
        simp only [hR, hF, hcl]
        by_cases h1 : (hasFlag f2 TRACE_REFLECTION && sphereOrBox prim) = true
          <;> by_cases h2 : (hasFlag f2 TRACE_REFRACTION && sphereOrBox prim) = true
          <;> simp only [h1, h2, if_true, if_false, Bool.false_eq_true, i1, i2, i3]
          <;> exact shadowPass_flag_congr f1 f2 scene _ _ hS

/-- C20: the AMBIENT flag has no effect on any result. For any two
configurations that agree on every bit other than TRACE_AMBIENT,
`CalculateLighting` returns identical colours and `TraceScene` returns identical
colours (and makes the same queries and calls) for all inputs; with
DIFFUSE_AND_SPEC disabled a non-Plane hit is shaded with the ambient colour of
its material under both configurations. -/
theorem C20_ambient_flag_has_no_effect (M : Maths) (f1 f2 : Nat)
    (h : f1 ||| TRACE_AMBIENT = f2 ||| TRACE_AMBIENT) :
    (∀ (lights : List Light) (campos : Vector3) (hit : RayHitResult),
        CalculateLighting M f1 lights campos hit = CalculateLighting M f2 lights campos hit)
      ∧ (∀ (scene : Scene) (ray : Ray) (c : Colour) (tl : Int) (s : Bool),
        TraceScene M f1 scene ray c tl s = TraceScene M f2 scene ray c tl s)
      ∧ (∀ (lights : List Light) (campos : Vector3) (hit : RayHitResult) (prim : Primitive),
        hit.data = some prim → prim.m_primtype ≠ PrimType.Plane →
        hasFlag f1 TRACE_DIFFUSE_AND_SPEC = false →
        CalculateLighting M f1 lights campos hit = some prim.material.ambient
          ∧ CalculateLighting M f2 lights campos hit = some prim.material.ambient) := by
  have hD := hasFlag_congr_ambient f1 f2 TRACE_DIFFUSE_AND_SPEC (by decide) h
  have hS := hasFlag_congr_ambient f1 f2 TRACE_SHADOW (by decide) h
  have hR := hasFlag_congr_ambient f1 f2 TRACE_REFLECTION (by decide) h
  have hF := hasFlag_congr_ambient f1 f2 TRACE_REFRACTION (by decide) h
  refine ⟨?_, ?_, ?_⟩
  · intro lights campos hit
    exact CalculateLighting_flag_congr M f1 f2 lights campos hit hD
  · intro scene ray c tl s
    exact TraceScene_flag_congr_aux M f1 f2 scene c s hD hS hR hF tl.toNat tl ray (by omega)
  · intro lights campos hit prim hd hp hf
    exact ⟨CalculateLighting_unlit M f1 lights campos hit prim hd hp hf,
      CalculateLighting_unlit M f2 lights campos hit prim hd hp (by rw [← hD]; exact hf)⟩

/-- C20 at a concrete input: every flag enabled against every flag but AMBIENT,
on the shadowed sphere at trace level 5. -/
theorem C20_ambient_flag_has_no_effect_witness :
    allFlags ||| TRACE_AMBIENT
        = (TRACE_DIFFUSE_AND_SPEC ||| TRACE_SHADOW ||| TRACE_REFLECTION ||| TRACE_REFRACTION)
          ||| TRACE_AMBIENT
      ∧ TraceScene mathsQ allFlags shadowedSphereScene primaryRay
          shadowedSphereScene.background 5 false
        = TraceScene mathsQ
            (TRACE_DIFFUSE_AND_SPEC ||| TRACE_SHADOW ||| TRACE_REFLECTION ||| TRACE_REFRACTION)
            shadowedSphereScene primaryRay shadowedSphereScene.background 5 false :=
  ⟨by decide,
    (C20_ambient_flag_has_no_effect mathsQ allFlags
      (TRACE_DIFFUSE_AND_SPEC ||| TRACE_SHADOW ||| TRACE_REFLECTION ||| TRACE_REFRACTION)
      (by decide)).2.1 shadowedSphereScene primaryRay shadowedSphereScene.background 5 false⟩

end RT
